import Mathlib

/-!
Entity store: a shallow embedding.

The store of `Store.go`, `store_entity.go` and `store_attribute.go` talks to a
relational database through `database/sql`.  The embedding keeps the Go control
flow of every store method and replaces the database by an explicit `World`:

* the four tables are lists of rows (`DB`), in insertion order;
* a statement is a value of `Stmt`, a query a value of `Query`;
* `st.db.Begin`, `tx.Exec`, `st.db.Exec`, `st.db.Query`, `st.db.QueryRow` and
  `tx.Commit` are fallible: the outcome of the n-th such call is `fault n`,
  so every pattern of statement failures is a `World`;
* the row stream of a `Query` may stop before its last row (`rowsCut`); the store
  collects rows with `for rows.Next()` and does not read `rows.Err()`, so it sees the
  rows delivered and a nil error;
* a transaction buffers its statements in `pending`; `Commit` applies them,
  `Rollback` discards them, a failed `Commit` persists nothing;
* `time.Now()` reads `clock`, `uid.HumanUid()`/`uid.MicroUid()` read `uid`;
* every executor call is appended to `log`.

Tables are addressed by role (entity, attribute, entity trash, attribute
trash) instead of by the configured table name.
-/

namespace EntityStore

/-! ## Data model -/

/-- A Go `time.Time`, as a clock reading; the zero time is `0`. -/
abbrev Time := Nat

/-- Go error values that the store can return. -/
inductive Error where
  /-- The sentinel `sql.ErrNoRows`. -/
  | ErrNoRows
  /-- An error made by `errors.New(msg)`. -/
  | errorsNew (msg : String)
  /-- Any other error raised by the executor. -/
  | driver (code : Nat)
  deriving DecidableEq, Repr

/-- Modelled from the spec: the `Entity` struct, whose declaration is not among the
sources.  The fields `ID`, `Type`, `Handle`, `CreatedAt`, `UpdatedAt` are the ones the
store reads and writes; `Status` is the `entity_status` column of `SqlCreateTable`.
`Type` is spelled `EntityType`.  Field defaults are the Go zero values. -/
structure Entity where
  ID : String := ""
  Status : String := ""
  EntityType : String := ""
  Handle : String := ""
  CreatedAt : Time := 0
  UpdatedAt : Time := 0
  deriving DecidableEq, Repr

/-- Modelled from the spec: the `Attribute` struct, whose declaration is not among the
sources.  The seven fields are the ones `AttributeFind` scans; `DeletedAt` is
nullable (`deleted_at IS NULL` in `AttributeFind`). -/
structure Attribute where
  ID : String := ""
  EntityID : String := ""
  AttributeKey : String := ""
  AttributeValue : String := ""
  CreatedAt : Time := 0
  UpdatedAt : Time := 0
  DeletedAt : Option Time := none
  deriving DecidableEq, Repr

/-- Modelled from the spec: the `EntityTrash` struct (the row type of the entity trash
table), structurally an `Entity` plus `deleted_at` and `deleted_by`; the columns are
those of `SqlCreateTable`. -/
structure EntityTrashRow where
  ID : String := ""
  Status : String := ""
  EntityType : String := ""
  Handle : String := ""
  CreatedAt : Time := 0
  UpdatedAt : Time := 0
  DeletedAt : Time := 0
  DeletedBy : String := ""
  deriving DecidableEq, Repr

/-- Modelled from the spec: the `AttributeTrash` struct (the row type of the attribute
trash table), structurally an `Attribute` plus `deleted_at` and `deleted_by`. -/
structure AttributeTrashRow where
  ID : String := ""
  EntityID : String := ""
  AttributeKey : String := ""
  AttributeValue : String := ""
  CreatedAt : Time := 0
  UpdatedAt : Time := 0
  DeletedAt : Time := 0
  DeletedBy : String := ""
  deriving DecidableEq, Repr

/-- The committed contents of the four tables. -/
structure DB where
  entities : List Entity := []
  attributes : List Attribute := []
  entityTrash : List EntityTrashRow := []
  attributeTrash : List AttributeTrashRow := []
  deriving DecidableEq, Repr

/-- The statements the store sends to `Exec`. -/
inductive Stmt where
  /-- `INSERT INTO <entity> ...` of one row. -/
  | insertEntity (row : Entity)
  /-- `INSERT INTO <attribute> ...` of one row. -/
  | insertAttribute (row : Attribute)
  /-- `INSERT INTO <entity>_trash ...` of one row. -/
  | insertEntityTrash (row : EntityTrashRow)
  /-- `INSERT INTO <attribute>_trash ...` of one row. -/
  | insertAttributeTrash (row : AttributeTrashRow)
  /-- `DELETE FROM <attribute> WHERE entity_id = id`. -/
  | deleteAttributesByEntityID (id : String)
  /-- `DELETE FROM <entity> WHERE id = id`. -/
  | deleteEntityByID (id : String)
  /-- `UPDATE <attribute> SET <all columns of row>`, with no `WHERE` clause. -/
  | updateAttributeSet (row : Attribute)
  /-- `UPDATE <entity> SET <all columns of row> WHERE id = id`. -/
  | updateEntityByID (id : String) (row : Entity)
  /-- A `CREATE TABLE IF NOT EXISTS` statement, given by its text. -/
  | ddl (sql : String)
  deriving DecidableEq, Repr

/-- The queries the store sends to `Query` / `QueryRow`. -/
inductive Query where
  /-- `SELECT id, entity_type, entity_handle, created_at, updated_at FROM <entity> WHERE id = id`. -/
  | entityByID (id : String)
  /-- `SELECT ... FROM <attribute> WHERE entity_id = id ORDER BY attribute_key ASC`. -/
  | attributesByEntityID (id : String)
  /-- `SELECT ... FROM <attribute> WHERE entity_id = id AND deleted_at IS NULL`. -/
  | attributeLiveByEntityID (id : String)
  deriving DecidableEq, Repr

/-- One call to the executor, with its outcome. -/
inductive Event where
  | begin (err : Option Error)
  | query (q : Query) (err : Option Error)
  | exec (inTx : Bool) (s : Stmt) (err : Option Error)
  | commit (err : Option Error)
  | rollback
  deriving DecidableEq, Repr

/-- The effect of a successful statement on the tables. -/
def Stmt.apply (s : Stmt) (db : DB) : DB :=
  match s with
  | .insertEntity row => { db with entities := db.entities ++ [row] }
  | .insertAttribute row => { db with attributes := db.attributes ++ [row] }
  | .insertEntityTrash row => { db with entityTrash := db.entityTrash ++ [row] }
  | .insertAttributeTrash row => { db with attributeTrash := db.attributeTrash ++ [row] }
  | .deleteAttributesByEntityID id =>
      { db with attributes := db.attributes.filter (fun a => a.EntityID ≠ id) }
  | .deleteEntityByID id =>
      { db with entities := db.entities.filter (fun e => e.ID ≠ id) }
  | .updateAttributeSet row => { db with attributes := db.attributes.map (fun _ => row) }
  | .updateEntityByID id row =>
      { db with entities := db.entities.map (fun e => if e.ID = id then row else e) }
  | .ddl _ => db

/-- The effect of a committed transaction: its statements, in order. -/
def applyAll (ss : List Stmt) (db : DB) : DB :=
  ss.foldl (fun d s => s.apply d) db

/-- The database, the open transaction, and the environment of a store call. -/
structure World where
  /-- The committed tables. -/
  db : DB := {}
  /-- The statements of the open transaction, `none` when no transaction is open. -/
  pending : Option (List Stmt) := none
  /-- The outcome of the n-th fallible executor call (`none`: it succeeds). -/
  fault : Nat → Option Error := fun _ => none
  /-- The number of fallible executor calls made so far. -/
  calls : Nat := 0
  /-- The n-th reading of `time.Now()`. -/
  clock : Nat → Time := fun n => n
  /-- The number of clock readings made so far. -/
  ticks : Nat := 0
  /-- The n-th identifier produced by the `uid` package. -/
  uid : Nat → String := fun _ => ""
  /-- The number of identifiers produced so far. -/
  uids : Nat := 0
  /-- The executor calls made so far, oldest first. -/
  log : List Event := []
  /-- For the n-th fallible executor call, when it is a `Query`: the number of rows its
  row stream delivers before it stops (`none`: it delivers every row). -/
  rowsCut : Nat → Option Nat := fun _ => none

/-! ## The executor -/

/-- Call `time.Now()`. -/
def timeNow (w : World) : Time × World :=
  (w.clock w.ticks, { w with ticks := w.ticks + 1 })

/-- Call `uid.HumanUid()` or `uid.MicroUid()`. -/
def newUid (w : World) : String × World :=
  (w.uid w.uids, { w with uids := w.uids + 1 })

/-- Call `st.db.Begin()`: on success a transaction with no statements is open. -/
def dbBegin (w : World) : Option Error × World :=
  let err := w.fault w.calls
  (err, { w with
    calls := w.calls + 1
    pending := if err.isNone then some [] else w.pending
    log := w.log ++ [Event.begin err] })

/-- Call `tx.Exec(s)`: on success the statement joins the open transaction. -/
def txExec (s : Stmt) (w : World) : Option Error × World :=
  let err := w.fault w.calls
  (err, { w with
    calls := w.calls + 1
    pending := if err.isNone then w.pending.map (fun ss => ss ++ [s]) else w.pending
    log := w.log ++ [Event.exec true s err] })

/-- Call `st.db.Exec(s)`: on success the statement is applied to the tables at once. -/
def dbExec (s : Stmt) (w : World) : Option Error × World :=
  let err := w.fault w.calls
  (err, { w with
    calls := w.calls + 1
    db := if err.isNone then s.apply w.db else w.db
    log := w.log ++ [Event.exec false s err] })

/-- Call `tx.Commit()`: on success the transaction is applied to the tables; either
way the transaction is over. -/
def txCommit (w : World) : Option Error × World :=
  let err := w.fault w.calls
  (err, { w with
    calls := w.calls + 1
    db := if err.isNone then applyAll (w.pending.getD []) w.db else w.db
    pending := none
    log := w.log ++ [Event.commit err] })

/-- Call `tx.Rollback()`: the statements of the transaction are discarded. -/
def txRollback (w : World) : World :=
  { w with pending := none, log := w.log ++ [Event.rollback] }

/-- Call `st.db.QueryRow(q).Scan(...)`: the first of `rows`, `sql.ErrNoRows` when
there is none, or the error of a failing query. -/
def dbQueryRow {α : Type} (q : Query) (rows : List α) (w : World) :
    (Option α × Option Error) × World :=
  let res : Option α × Option Error :=
    match w.fault w.calls with
    | some err => (none, some err)
    | none =>
      match rows with
      | [] => (none, some Error.ErrNoRows)
      | r :: _ => (some r, none)
  (res, { w with calls := w.calls + 1, log := w.log ++ [Event.query q res.2] })

/-- The rows a row stream delivers when it stops after `cut` rows. -/
def cutRows {α : Type} (cut : Option Nat) (rows : List α) : List α :=
  match cut with
  | some n => rows.take n
  | none => rows

/-- Call `st.db.Query(q)` and collect the rows with `for rows.Next() { rows.Scan(...) }`,
as the store does, never reading `rows.Err()`.  The outcomes are: the query fails (no
row, the error); the scan of a row fails (the rows before it, the error); the row
stream stops early, where `rows.Next()` is false as at the end of the rows (the rows
delivered, a nil error); every row is delivered (all of `rows`, a nil error). -/
def dbQuery {α : Type} (q : Query) (rows : List α) (w : World) :
    (List α × Option Error) × World :=
  let res : List α × Option Error :=
    match w.fault w.calls with
    | some err =>
      (match w.rowsCut w.calls with
        | none => []
        | some n => rows.take n, some err)
    | none => (cutRows (w.rowsCut w.calls) rows, none)
  (res, { w with calls := w.calls + 1, log := w.log ++ [Event.query q res.2] })

/-- The order of `ORDER BY attribute_key ASC`. -/
def keyLE (a b : Attribute) : Prop := a.AttributeKey.data ≤ b.AttributeKey.data

instance : DecidableRel keyLE := fun a b =>
  inferInstanceAs (Decidable (a.AttributeKey.data ≤ b.AttributeKey.data))

/-! ## store_entity.go -/

/-- The rows of `SELECT ... FROM <attribute> WHERE entity_id = id ORDER BY attribute_key`. -/
def DB.attributesOf (db : DB) (entityID : String) : List Attribute :=
  (db.attributes.filter (fun a => a.EntityID = entityID)).insertionSort keyLE

/-- The rows of `SELECT id, entity_type, entity_handle, created_at, updated_at
FROM <entity> WHERE id = id`, scanned into a fresh `Entity`. -/
def DB.entitiesByID (db : DB) (entityID : String) : List Entity :=
  (db.entities.filter (fun e => e.ID = entityID)).map (fun e =>
    { ID := e.ID, EntityType := e.EntityType, Handle := e.Handle,
      CreatedAt := e.CreatedAt, UpdatedAt := e.UpdatedAt })

/-- `Store.EntityAttributeList`: the query, then the loop `for rows.Next()` that scans
and appends each row, then `return attrs, nil`. -/
def EntityAttributeList (entityID : String) (w : World) :
    (List Attribute × Option Error) × World :=
  dbQuery (Query.attributesByEntityID entityID) (w.db.attributesOf entityID) w

/-- `Store.EntityFindByID`. -/
def EntityFindByID (entityID : String) (w : World) :
    (Option Entity × Option Error) × World :=
  if entityID = "" then
    ((none, some (Error.errorsNew "entity ID cannot be emopty")), w)
  else
    match dbQueryRow (Query.entityByID entityID) (w.db.entitiesByID entityID) w with
    | ((_, some err), w1) =>
      if err = Error.ErrNoRows then ((none, none), w1) else ((none, some err), w1)
    | ((ent, none), w1) => ((ent, none), w1)

/-- The loop of `Store.EntityTrash` over the attributes: one `AttributeTrash` insert
per attribute, stopping with a rollback at the first failing insert. -/
def entityTrashAttrs : List Attribute → World → Option Error × World
  | [], w => (none, w)
  | attr :: rest, w =>
    let now := timeNow w
    let attrTrash : AttributeTrashRow :=
      { ID := attr.ID, EntityID := attr.EntityID, AttributeKey := attr.AttributeKey,
        AttributeValue := attr.AttributeValue, CreatedAt := attr.CreatedAt,
        UpdatedAt := attr.UpdatedAt, DeletedAt := now.1 }
    match txExec (Stmt.insertAttributeTrash attrTrash) now.2 with
    | (some err, w1) => (some err, txRollback w1)
    | (none, w1) => entityTrashAttrs rest w1

/-- `Store.EntityTrash`. -/
def EntityTrash (entityID : String) (w : World) : (Bool × Option Error) × World :=
  if entityID = "" then
    ((false, some (Error.errorsNew "entity ID cannot be empty")), w)
  else
    match dbBegin w with
    | (some err, w1) => ((false, some err), w1)
    | (none, w1) =>
    match EntityFindByID entityID w1 with
    | ((_, some err), w2) => ((false, some err), txRollback w2)
    | ((none, none), w2) => ((false, none), txRollback w2)
    | ((some ent, none), w2) =>
    let now := timeNow w2
    let entTrash : EntityTrashRow :=
      { ID := ent.ID, EntityType := ent.EntityType, CreatedAt := ent.CreatedAt,
        UpdatedAt := ent.UpdatedAt, DeletedAt := now.1 }
    match txExec (Stmt.insertEntityTrash entTrash) now.2 with
    | (some err, w3) => ((false, some err), txRollback w3)
    | (none, w3) =>
    match EntityAttributeList entityID w3 with
    | ((_, some err), w4) => ((false, some err), txRollback w4)
    | ((attrs, none), w4) =>
    match entityTrashAttrs attrs w4 with
    | (some err, w5) => ((false, some err), w5)
    | (none, w5) =>
    match txExec (Stmt.deleteAttributesByEntityID entityID) w5 with
    | (some err, w6) => ((false, some err), txRollback w6)
    | (none, w6) =>
    match txExec (Stmt.deleteEntityByID entityID) w6 with
    | (some err, w7) => ((false, some err), txRollback w7)
    | (none, w7) =>
    match txCommit w7 with
    | (none, w8) => ((true, none), w8)
    | (some err, w8) => ((false, some err), w8)

/-- The executor a statement goes to: the open transaction or the database handle
(the Go interface `txOrDB`). -/
def execOn (inTx : Bool) (s : Stmt) (w : World) : Option Error × World :=
  if inTx then txExec s w else dbExec s w

/-- `Store.entityCreateWithTransactionOrDB`. -/
def entityCreateWithTransactionOrDB (inTx : Bool) (entityType : String) (w : World) :
    (Entity × Option Error) × World :=
  let id := newUid w
  let t1 := timeNow id.2
  let t2 := timeNow t1.2
  let entity : Entity :=
    { ID := id.1, EntityType := entityType, CreatedAt := t1.1, UpdatedAt := t2.1 }
  let r := execOn inTx (Stmt.insertEntity entity) t2.2
  ((entity, r.1), r.2)

/-- `Store.EntityCreate`. -/
def EntityCreate (entityType : String) (w : World) : (Entity × Option Error) × World :=
  entityCreateWithTransactionOrDB false entityType w

/-- Modelled from the spec: `Store.attributeCreateWithTransactionOrDB`, which
`EntityCreateWithAttributes` calls and which is not among the sources.  The spec of
`createWithAttributes` has it insert one attribute row for the map entry, within the
transaction; the row is an `Attribute` of the data model: a generated id, the entity
id, the key, the value, and both timestamps read from the clock. -/
def attributeCreateWithTransactionOrDB (inTx : Bool) (entityID attributeKey
    attributeValue : String) (w : World) : (Attribute × Option Error) × World :=
  let id := newUid w
  let t1 := timeNow id.2
  let t2 := timeNow t1.2
  let newAttribute : Attribute :=
    { ID := id.1, EntityID := entityID, AttributeKey := attributeKey,
      AttributeValue := attributeValue, CreatedAt := t1.1, UpdatedAt := t2.1 }
  let r := execOn inTx (Stmt.insertAttribute newAttribute) t2.2
  ((newAttribute, r.1), r.2)

/-- The loop of `Store.EntityCreateWithAttributes` over the map entries, in the order
the Go runtime visits them: it stops with a rollback at the first failing insert. -/
def entityCreateAttrs (entityID : String) : List (String × String) → World →
    Option Error × World
  | [], w => (none, w)
  | (k, v) :: rest, w =>
    match attributeCreateWithTransactionOrDB true entityID k v w with
    | ((_, some err), w1) => (some err, txRollback w1)
    | ((_, none), w1) => entityCreateAttrs entityID rest w1

/-- `Store.EntityCreateWithAttributes`; the map is the list of its entries in
iteration order. -/
def EntityCreateWithAttributes (entityType : String) (attributes : List (String × String))
    (w : World) : (Option Entity × Option Error) × World :=
  match dbBegin w with
  | (some err, w1) => ((none, some err), w1)
  | (none, w1) =>
  match entityCreateWithTransactionOrDB true entityType w1 with
  | ((_, some err), w2) => ((none, some err), txRollback w2)
  | ((entity, none), w2) =>
  match entityCreateAttrs entity.ID attributes w2 with
  | (some err, w3) => ((none, some err), w3)
  | (none, w3) =>
  match txCommit w3 with
  | (some err, w4) => ((none, some err), txRollback w4)
  | (none, w4) => ((some entity, none), w4)

/-! ## store_attribute.go -/

/-- A Go value passed as `interface{}`, `int64`, `float64` or `string`; a `float64`
is carried by its bit pattern. -/
inductive GoValue where
  | string (s : String)
  | int64 (i : Int)
  | float64 (bits : Nat)
  | other (repr : String)
  deriving DecidableEq, Repr

/-- The methods `SetString`, `SetInt`, `SetFloat` and `SetInterface` of `Attribute`
(the Attribute Codec), which are not among the sources: each gives the text stored in
`attribute_value`. -/
structure Codec where
  SetString : String → String
  SetInt : Int → String
  SetFloat : Nat → String
  SetInterface : GoValue → String

/-- The rows of `SELECT ... FROM <attribute> WHERE entity_id = id AND deleted_at IS NULL`. -/
def DB.liveAttributesOf (db : DB) (entityID : String) : List Attribute :=
  db.attributes.filter (fun a => a.EntityID = entityID ∧ a.DeletedAt = none)

/-- `Store.AttributeFind`. -/
def AttributeFind (entityID : String) (attributeKey : String) (w : World) :
    (Option Attribute × Option Error) × World :=
  let _ := attributeKey
  match dbQueryRow (Query.attributeLiveByEntityID entityID) (w.db.liveAttributesOf entityID) w with
  | ((_, some err), w1) =>
    if err = Error.ErrNoRows then ((none, some err), w1) else ((none, some err), w1)
  | ((attr, none), w1) => ((attr, none), w1)

/-- `Store.AttributeCreateInterface`. -/
def AttributeCreateInterface (c : Codec) (entityID attributeKey : String)
    (attributeValue : GoValue) (w : World) : (Attribute × Option Error) × World :=
  let t1 := timeNow w
  let t2 := timeNow t1.2
  let attr : Attribute :=
    { EntityID := entityID, AttributeKey := attributeKey, CreatedAt := t1.1, UpdatedAt := t2.1 }
  let attr := { attr with AttributeValue := c.SetInterface attributeValue }
  let r := dbExec (Stmt.insertAttribute attr) t2.2
  ((attr, r.1), r.2)

/-- The common body of `AttributeSetFloat`, `AttributeSetInt`, `AttributeSetInterface`
and `AttributeSetString`, which differ in the setter applied to a found attribute
(`encoded` is the text that setter stores) and in the boxed value handed to
`AttributeCreateInterface`. -/
def attributeSet (c : Codec) (entityID attributeKey : String) (boxed : GoValue)
    (encoded : String) (w : World) : (Bool × Option Error) × World :=
  match AttributeFind entityID attributeKey w with
  | ((_, some err), w1) => ((false, some err), w1)
  | ((none, none), w1) =>
    match AttributeCreateInterface c entityID attributeKey boxed w1 with
    | ((_, some err), w2) => ((false, some err), w2)
    | ((_, none), w2) => ((true, none), w2)
  | ((some attr, none), w1) =>
    let attr := { attr with AttributeValue := encoded }
    let now := timeNow w1
    let attr := { attr with UpdatedAt := now.1 }
    match dbExec (Stmt.updateAttributeSet attr) now.2 with
    | (some err, w2) => ((false, some err), w2)
    | (none, w2) => ((true, none), w2)

/-- `Store.AttributeSetFloat`. -/
def AttributeSetFloat (c : Codec) (entityID attributeKey : String) (attributeValue : Nat)
    (w : World) : (Bool × Option Error) × World :=
  attributeSet c entityID attributeKey (GoValue.float64 attributeValue)
    (c.SetFloat attributeValue) w

/-- `Store.AttributeSetInt`. -/
def AttributeSetInt (c : Codec) (entityID attributeKey : String) (attributeValue : Int)
    (w : World) : (Bool × Option Error) × World :=
  attributeSet c entityID attributeKey (GoValue.int64 attributeValue)
    (c.SetInt attributeValue) w

/-- `Store.AttributeSetInterface`. -/
def AttributeSetInterface (c : Codec) (entityID attributeKey : String)
    (attributeValue : GoValue) (w : World) : (Bool × Option Error) × World :=
  attributeSet c entityID attributeKey attributeValue (c.SetInterface attributeValue) w

/-- `Store.AttributeSetString`. -/
def AttributeSetString (c : Codec) (entityID attributeKey : String)
    (attributeValue : String) (w : World) : (Bool × Option Error) × World :=
  attributeSet c entityID attributeKey (GoValue.string attributeValue)
    (c.SetString attributeValue) w

/-- The loop of `Store.AttributesSet` over the map entries, in the order the Go
runtime visits them; `false` when it returned `false` (after a rollback), `true`
when it ran to the end. -/
def attributesSetLoop (c : Codec) (entityID : String) : List (String × GoValue) → World →
    Bool × World
  | [], w => (true, w)
  | (k, v) :: rest, w =>
    match AttributeFind entityID k w with
    | ((_, some _), w1) => (false, txRollback w1)
    | ((found, none), w1) =>
      let inserted : (Attribute × Option Error) × World :=
        match found with
        | some attr => ((attr, none), w1)
        | none =>
          let attr : Attribute := { EntityID := entityID, AttributeKey := k }
          let attr := { attr with AttributeValue := c.SetInterface v }
          let r := txExec (Stmt.insertAttribute attr) w1
          ((attr, r.1), r.2)
      match inserted with
      | ((_, some _), w2) => (false, txRollback w2)
      | ((attr, none), w2) =>
        let attr := { attr with AttributeValue := c.SetInterface v }
        let now := timeNow w2
        let attr := { attr with UpdatedAt := now.1 }
        match txExec (Stmt.updateAttributeSet attr) now.2 with
        | (some _, w3) => (false, txRollback w3)
        | (none, w3) => attributesSetLoop c entityID rest w3

/-- `Store.AttributesSet`; the map is the list of its entries in iteration order. -/
def AttributesSet (c : Codec) (entityID : String) (attributes : List (String × GoValue))
    (w : World) : Bool × World :=
  match dbBegin w with
  | (some _, w1) => (false, w1)
  | (none, w1) =>
  match attributesSetLoop c entityID attributes w1 with
  | (false, w2) => (false, w2)
  | (true, w2) =>
  match txCommit w2 with
  | (some _, w3) => (false, txRollback w3)
  | (none, w3) => (true, w3)

/-! ## Store.go -/

/-- The configuration of `Store`; its `db` handle is the `World`. -/
structure Store where
  entityTableName : String := ""
  attributeTableName : String := ""
  entityTrashTableName : String := ""
  attributeTrashTableName : String := ""
  dbDriverName : String := ""
  automigrateEnabled : Bool := false
  debugEnabled : Bool := false
  deriving DecidableEq, Repr

/-- `Store.SqlCreateTable`; a nil slice is the empty list. -/
def SqlCreateTable (st : Store) : List String × Option Error :=
  let sqlMysql1 :=
    "\n\tCREATE TABLE IF NOT EXISTS " ++ st.entityTableName ++
    " (\n\t\tid varchar(40) NOT NULL PRIMARY KEY,\n\t\tentity_status varchar(10) NOT NULL,\n\t\tentity_type varchar(40) NOT NULL,\n\t\tentity_handle varchar(60) DEFAULT '',\n\t\tcreated_at datetime NOT NULL,\n\t\tupdated_at datetime NOT NULL\n\t );\n\t"
  let sqlMysql2 :=
    "\n\tCREATE TABLE IF NOT EXISTS " ++ st.attributeTableName ++
    " (\n\t\tid varchar(40) NOT NULL PRIMARY KEY,\n\t\tentity_id varchar(40) NOT NULL,\n\t\tattribute_key varchar(255) NOT NULL,\n\t\tattribute_value text,\n\t\tcreated_at datetime NOT NULL,\n\t\tupdated_at datetime NOT NULL\n\t);\n\t"
  let sqlMysql3 :=
    "\n\tCREATE TABLE IF NOT EXISTS " ++ st.entityTrashTableName ++
    " (\n\t\tid varchar(40) NOT NULL PRIMARY KEY,\n\t\tentity_status varchar(10) NOT NULL,\n\t\tentity_type varchar(40) NOT NULL,\n\t\tentity_handle varchar(60) DEFAULT '',\n\t\tcreated_at datetime NOT NULL,\n\t\tupdated_at datetime NOT NULL,\n\t\tdeleted_at datetime NOT NULL,\n\t\tdeleted_by varchar(40)\n\t);\n\t"
  let sqlMysql4 :=
    "\n\tCREATE TABLE IF NOT EXISTS " ++ st.attributeTrashTableName ++
    " (\n\t\tid varchar(40) NOT NULL PRIMARY KEY,\n\t\tentity_id varchar(40) NOT NULL,\n\t\tattribute_key varchar(255) NOT NULL,\n\t\tattribute_value text,\n\t\tcreated_at datetime NOT NULL,\n\t\tupdated_at datetime NOT NULL,\n\t\tdeleted_at datetime NOT NULL,\n\t\tdeleted_by varchar(40)\n\t);\n\t"
  let sqlPostgres1 :=
    "\n\tCREATE TABLE IF NOT EXISTS " ++ st.attributeTableName ++
    " (\n\t\t\"id\" varchar(40) NOT NULL PRIMARY KEY,\n\t\t\"entity_id\" varchar(40) NOT NULL,\n\t\t\"attribute_key\" varchar(255) NOT NULL,\n\t\t\"attribute_value\" text,\n\t\t\"created_at\" timestamptz(6) NOT NULL,\n\t\t\"updated_at\" timestamptz(6) NOT NULL\n\t);\n\t"
  let sqlPostgres2 :=
    "\n\tCREATE TABLE IF NOT EXISTS " ++ st.entityTableName ++
    " (\n\t   \"id\" varchar(40) NOT NULL PRIMARY KEY,\n\t   \"entity_status\" varchar(10) NOT NULL,\n\t   \"entity_type\" varchar(40) NOT NULL,\n\t   \"entity_handle\" varchar(60) DEFAULT '',\n\t   \"created_at\" timestamptz(6),\n\t   \"updated_at\" timestamptz(6)\n\t);\n\t"
  let sqlPostgres3 :=
    "\n\tCREATE TABLE IF NOT EXISTS " ++ st.entityTrashTableName ++
    " (\n\t\t\"id\" varchar(40) NOT NULL PRIMARY KEY,\n\t\t\"entity_status\" varchar(10) NOT NULL,\n\t\t\"entity_type\" varchar(40) NOT NULL,\n\t\t\"entity_handle\" varchar(60) DEFAULT '',\n\t\t\"created_at\" timestamptz(6) NOT NULL,\n\t\t\"updated_at\" timestamptz(6) NOT NULL,\n\t\t\"deleted_at\" timestamptz(6) NOT NULL,\n\t\t\"deleted_by\" varchar(40)\n\t);\n\t"
  let sqlPostgres4 :=
    "\n\tCREATE TABLE IF NOT EXISTS " ++ st.attributeTrashTableName ++
    " (\n\t\t\"id\" varchar(40) NOT NULL PRIMARY KEY,\n\t\t\"entity_id\" varchar(40) NOT NULL,\n\t\t\"attribute_key\" varchar(255) NOT NULL,\n\t\t\"attribute_value\" text,\n\t\t\"created_at\" timestamptz(6) NOT NULL,\n\t\t\"updated_at\" timestamptz(6) NOT NULL,\n\t\t\"deleted_at\" timestamptz(6) NOT NULL,\n\t\t\"deleted_by\" varchar(40)\n\t);\n\t"
  let sqlSqlite1 :=
    "\n\tCREATE TABLE IF NOT EXISTS \"" ++ st.attributeTableName ++
    "\" (\n\t\t\"id\" varchar(40) NOT NULL PRIMARY KEY,\n\t\t\"entity_id\" varchar(40) NOT NULL,\n\t\t\"attribute_key\" varchar(255) NOT NULL,\n\t\t\"attribute_value\" text,\n\t\t\"created_at\" datetime NOT NULL,\n\t\t\"updated_at\" datetime NOT NULL\n\t);\n\t"
  let sqlSqlite2 :=
    "\n\tCREATE TABLE IF NOT EXISTS \"" ++ st.entityTableName ++
    "\" (\n\t   \"id\" varchar(40) NOT NULL PRIMARY KEY,\n\t   \"entity_status\" varchar(10) NOT NULL,\n\t   \"entity_type\" varchar(40) NOT NULL,\n\t   \"entity_handle\" varchar(60) DEFAULT '',\n\t   \"created_at\" datetime NOT NULL,\n\t   \"updated_at\" datetime NOT NULL\n\t);\n\t"
  let sqlSqlite3 :=
    "\n\tCREATE TABLE IF NOT EXISTS \"" ++ st.entityTrashTableName ++
    "\" (\n\t\t\"id\" varchar(40) NOT NULL PRIMARY KEY,\n\t\t\"entity_status\" varchar(10) NOT NULL,\n\t\t\"entity_type\" varchar(40) NOT NULL,\n\t\t\"entity_handle\" varchar(60) DEFAULT '',\n\t\t\"created_at\" datetime NOT NULL,\n\t\t\"updated_at\" datetime NOT NULL,\n\t\t\"deleted_at\" datetime NOT NULL,\n\t\t\"deleted_by\" varchar(40)\n\t);\n\t"
  let sqlSqlite4 :=
    "\n\tCREATE TABLE IF NOT EXISTS \"" ++ st.attributeTrashTableName ++
    "\" (\n\t\t\"id\" varchar(40) NOT NULL PRIMARY KEY,\n\t\t\"entity_id\" varchar(40) NOT NULL,\n\t\t\"attribute_key\" varchar(255) NOT NULL,\n\t\t\"attribute_value\" text,\n\t\t\"created_at\" datetime NOT NULL,\n\t\t\"updated_at\" datetime NOT NULL,\n\t\t\"deleted_at\" datetime NOT NULL,\n\t\t\"deleted_by\" varchar(40)\n\t);\n\t"
  if st.dbDriverName = "mysql" then
    ([sqlMysql1, sqlMysql2, sqlMysql3, sqlMysql4], none)
  else if st.dbDriverName = "postgres" then
    ([sqlPostgres1, sqlPostgres2, sqlPostgres3, sqlPostgres4], none)
  else if st.dbDriverName = "sqlite" then
    ([sqlSqlite1, sqlSqlite2, sqlSqlite3, sqlSqlite4], none)
  else
    ([], some (Error.errorsNew ("unsupported driver " ++ st.dbDriverName)))

/-- The loop of `Store.AutoMigrate` over the statements. -/
def autoMigrateLoop : List String → World → Option Error × World
  | [], w => (none, w)
  | sql :: rest, w =>
    match dbExec (Stmt.ddl sql) w with
    | (some _, w1) => (none, w1)
    | (none, w1) => autoMigrateLoop rest w1

/-- `Store.AutoMigrate`. -/
def AutoMigrate (st : Store) (w : World) : Option Error × World :=
  match SqlCreateTable st with
  | (_, some err) => (some err, w)
  | (sqls, none) => autoMigrateLoop sqls w

/-! ## Observations on a run -/

/-- The error of an executor call, `none` when it succeeded. -/
def Event.err : Event → Option Error
  | .begin e => e
  | .query _ e => e
  | .exec _ _ e => e
  | .commit e => e
  | .rollback => none

/-- The executor calls made between the world `w` and the later world `w1`. -/
def trace (w w1 : World) : List Event := w1.log.drop w.log.length

/-- Whether `sub` occurs in `s` (the test of Go `strings.Contains`, on characters). -/
def containsChars (sub : List Char) : List Char → Bool
  | [] => sub.isPrefixOf []
  | c :: cs => sub.isPrefixOf (c :: cs) || containsChars sub cs

/-- The number of positions of `s` at which `sub` occurs. -/
def countOccurrences (sub : List Char) : List Char → Nat
  | [] => 0
  | c :: cs => (if sub.isPrefixOf (c :: cs) then 1 else 0) + countOccurrences sub cs

/-- The attribute trash rows that `entityTrashAttrs` inserts for `attrs` when the
clock has been read `t` times: the i-th row is stamped with reading `t + i`. -/
def trashRows (clock : Nat → Time) : Nat → List Attribute → List AttributeTrashRow
  | _, [] => []
  | t, attr :: rest =>
    { ID := attr.ID, EntityID := attr.EntityID, AttributeKey := attr.AttributeKey,
      AttributeValue := attr.AttributeValue, CreatedAt := attr.CreatedAt,
      UpdatedAt := attr.UpdatedAt, DeletedAt := clock t } :: trashRows clock (t + 1) rest

/-- The attributes that the load of `EntityTrash` delivers in the world `w`: the load
is the fourth executor call of `EntityTrash`, after `Begin`, the find and the insert
of the entity trash row. -/
def loadedAttrs (w : World) (entityID : String) : List Attribute :=
  cutRows (w.rowsCut (w.calls + 3)) (w.db.attributesOf entityID)

/-- The entity trash row that `EntityTrash` inserts for the found entity `ent` when the
clock reads `now`. -/
def entityTrashRow (ent : Entity) (now : Time) : EntityTrashRow :=
  { ID := ent.ID, EntityType := ent.EntityType, CreatedAt := ent.CreatedAt,
    UpdatedAt := ent.UpdatedAt, DeletedAt := now }

/-- The statements of the transaction of an `EntityTrash` run that reaches `Commit`,
started when the clock has been read `t` times. -/
def entityTrashStmts (clock : Nat → Time) (t : Nat) (entityID : String) (ent : Entity)
    (attrs : List Attribute) : List Stmt :=
  Stmt.insertEntityTrash (entityTrashRow ent (clock t)) ::
    ((trashRows clock (t + 1) attrs).map Stmt.insertAttributeTrash ++
      [Stmt.deleteAttributesByEntityID entityID, Stmt.deleteEntityByID entityID])

/-- The attribute rows that `entityCreateAttrs` inserts for the entries `attrs` of
the entity `entityID` when `u` identifiers have been produced and the clock has been
read `t` times. -/
def createdAttrs (uid : Nat → String) (clock : Nat → Time) (entityID : String) :
    Nat → Nat → List (String × String) → List Attribute
  | _, _, [] => []
  | u, t, (k, v) :: rest =>
    { ID := uid u, EntityID := entityID, AttributeKey := k, AttributeValue := v,
      CreatedAt := clock t, UpdatedAt := clock (t + 1) } ::
      createdAttrs uid clock entityID (u + 1) (t + 2) rest

/-! ## Store.go: the dialect resolver and the constructor -/

/-- Go `strings.Contains(s, substr)`, on the characters of the two strings (for valid
UTF-8 text a substring of bytes is a substring of characters). -/
def stringsContains (s substr : String) : Bool :=
  containsChars substr.data s.data

/-- `Store.DriverName`, as a function of `reflect.ValueOf(db.Driver()).Type().String()`,
the type name of the driver of the handle. -/
def DriverName (driverFullName : String) : String :=
  if stringsContains driverFullName "mysql" then
    "mysql"
  else if stringsContains driverFullName "postgres" || stringsContains driverFullName "pq" then
    "postgres"
  else if stringsContains driverFullName "sqlite" ||
      stringsContains driverFullName "sqlite3" then
    "sqlite"
  else if stringsContains driverFullName "mssql" then
    "mssql"
  else
    driverFullName

/-- `StoreOption`: a function that updates the store under construction. -/
abbrev StoreOption := Store → Store

/-- `WithAutoMigrate`. -/
def WithAutoMigrate (automigrateEnabled : Bool) : StoreOption :=
  fun s => { s with automigrateEnabled := automigrateEnabled }

/-- `WithDb`; the handle is given by the type name of its driver, and its database is
the `World` the store is used with. -/
def WithDb (driverFullName : String) : StoreOption :=
  fun s => { s with dbDriverName := DriverName driverFullName }

/-- `WithDebug`. -/
def WithDebug (debugEnabled : Bool) : StoreOption :=
  fun s => { s with debugEnabled := debugEnabled }

/-- `WithEntityTableName`. -/
def WithEntityTableName (entityTableName : String) : StoreOption :=
  fun s => { s with entityTableName := entityTableName }

/-- `WithAttributeTableName`. -/
def WithAttributeTableName (attributeTableName : String) : StoreOption :=
  fun s => { s with attributeTableName := attributeTableName }

/-- The first loop of `NewStore`: the options applied in order to `&Store{}`. -/
def applyOptions (opts : List StoreOption) : Store :=
  opts.foldl (fun store opt => opt store) {}

/-- `NewStore`; the result of `store.AutoMigrate()` is dropped, its effect on the
database is kept. -/
def NewStore (opts : List StoreOption) (w : World) : (Option Store × Option Error) × World :=
  let store := applyOptions opts
  if store.entityTableName = "" then
    ((none, some (Error.errorsNew "Entity store: entityTableName is required")), w)
  else if store.attributeTableName = "" then
    ((none, some (Error.errorsNew "Entity store: attributeTableName is required")), w)
  else
    let store := { store with entityTrashTableName := store.entityTableName ++ "_trash" }
    let store := { store with attributeTrashTableName := store.attributeTableName ++ "_trash" }
    let w1 := if store.automigrateEnabled = true then (AutoMigrate store w).2 else w
    ((some store, none), w1)

/-! ## store_attribute.go: AttributeCreate -/

/-- `Store.AttributeCreate`; the parameter `entityID` is not used by the body. -/
def AttributeCreate (entityID attributeKey attributeValue : String) (w : World) :
    (Attribute × Option Error) × World :=
  let _ := entityID
  let id := newUid w
  let t1 := timeNow id.2
  let t2 := timeNow t1.2
  let newAttribute : Attribute :=
    { ID := id.1, AttributeKey := attributeKey, AttributeValue := attributeValue,
      CreatedAt := t1.1, UpdatedAt := t2.1 }
  let r := dbExec (Stmt.insertAttribute newAttribute) t2.2
  ((newAttribute, r.1), r.2)

/-- The attribute that the find of `AttributesSet` scans for the entity: the first live
attribute row of the entity (the zero attribute when there is none, in which case the
find fails). -/
def firstLiveAttribute (db : DB) (entityID : String) : Attribute :=
  ((db.liveAttributesOf entityID).head?).getD {}

/-- The rows of the updates of a complete `attributesSetLoop` run over the entries
`attrs`, one per entry and in their order, when every find has scanned `found` and the
clock has been read `t` times: the found row with the encoded value of the entry and
the clock reading. -/
def attributesSetUpdates (c : Codec) (clock : Nat → Time) (found : Attribute) :
    Nat → List (String × GoValue) → List Attribute
  | _, [] => []
  | t, (_, v) :: rest =>
    { found with AttributeValue := c.SetInterface v, UpdatedAt := clock t } ::
      attributesSetUpdates c clock found (t + 1) rest

/-- The executor calls of a complete `attributesSetLoop` run that updates with the rows
`rows`: for each row a successful find and a successful update in the transaction. -/
def attributesSetEvents (entityID : String) : List Attribute → List Event
  | [] => []
  | r :: rest =>
    Event.query (Query.attributeLiveByEntityID entityID) none ::
      Event.exec true (Stmt.updateAttributeSet r) none :: attributesSetEvents entityID rest

/-! ## Example worlds -/

/-- An example: the entity `e1` of type `post` with handle `home` and the attributes
`name` and `age`, the entity `e2` with the attribute `name`, and the entity `e3` with
no attribute; the clock reads `10, 11, ...`. -/
def exampleWorld : World :=
  { db :=
      { entities :=
          [{ ID := "e1", EntityType := "post", Handle := "home", CreatedAt := 1, UpdatedAt := 2 },
           { ID := "e2", EntityType := "post", CreatedAt := 3, UpdatedAt := 3 },
           { ID := "e3", EntityType := "page", CreatedAt := 6, UpdatedAt := 6 }]
        attributes :=
          [{ ID := "a1", EntityID := "e1", AttributeKey := "name", AttributeValue := "Ann", CreatedAt := 1, UpdatedAt := 4 },
           { ID := "a2", EntityID := "e2", AttributeKey := "name", AttributeValue := "Bob",
             CreatedAt := 3, UpdatedAt := 3 },
           { ID := "a3", EntityID := "e1", AttributeKey := "age", AttributeValue := "7",
             CreatedAt := 1, UpdatedAt := 5 }] }
    clock := fun n => 10 + n
    uid := fun n => if n = 0 then "u0" else if n = 1 then "u1" else "u2" }

/-- The example world in which the row stream of the executor call number 3 (the
attribute load of `EntityTrash`) stops after one row. -/
def exampleWorldCut : World :=
  { exampleWorld with rowsCut := fun i => if i = 3 then some 1 else none }

/-- The example world in which the executor call number `n` fails. -/
def exampleWorldFailing (n : Nat) : World :=
  { exampleWorld with fault := fun i => if i = n then some (Error.driver 1) else none }

/-- An example codec: a string is stored as it is, an integer between 0 and 9 as its
digit. -/
def exampleCodec : Codec :=
  { SetString := fun s => s
    SetInt := fun i => (Nat.digitChar i.toNat).toString
    SetFloat := fun _ => "float"
    SetInterface := fun v =>
      match v with
      | GoValue.string s => s
      | GoValue.int64 i => (Nat.digitChar i.toNat).toString
      | GoValue.float64 _ => "float"
      | GoValue.other r => r }

/-- An example store on the driver `driver`, with the table names of the tests. -/
def exampleStore (driver : String) : Store :=
  { entityTableName := "cms_entity"
    attributeTableName := "cms_attribute"
    entityTrashTableName := "cms_entity_trash"
    attributeTrashTableName := "cms_attribute_trash"
    dbDriverName := driver }

/-- Every timestamp column of the column list `cols` (a column whose name ends in
`_at`, of which there is at least one) is declared with the type `ty`: each occurrence
of `_at` is followed by the type, after a blank or after a closing quote and a blank. -/
def TimestampsTyped (ty : String) (cols : String) : Prop :=
  0 < countOccurrences "_at".data cols.data ∧
  countOccurrences "_at".data cols.data =
    countOccurrences ("_at " ++ ty).data cols.data +
      countOccurrences ("_at\" " ++ ty).data cols.data

instance (ty cols : String) : Decidable (TimestampsTyped ty cols) :=
  inferInstanceAs (Decidable (_ ∧ _))

/-! ## Lemmas on the executor -/

theorem entityTrashAttrs_ok (attrs : List Attribute) (w : World)
    (h : (entityTrashAttrs attrs w).1 = none) :
    (entityTrashAttrs attrs w).2 =
      { w with
        ticks := w.ticks + attrs.length
        calls := w.calls + attrs.length
        pending := w.pending.map (fun ss =>
          ss ++ (trashRows w.clock w.ticks attrs).map Stmt.insertAttributeTrash)
        log := w.log ++ (trashRows w.clock w.ticks attrs).map
          (fun r => Event.exec true (Stmt.insertAttributeTrash r) none) } := by
  induction attrs generalizing w with
  | nil => simp [entityTrashAttrs, trashRows]
  | cons a rest ih =>
    rw [entityTrashAttrs] at h ⊢
    cases hf : w.fault w.calls with
    | some e => simp [txExec, timeNow, hf] at h
    | none =>
      simp only [txExec, timeNow, hf] at h ⊢
      rw [ih _ h]
      cases hp : w.pending <;>
        simp [trashRows, hp, Nat.add_assoc, Nat.add_comm 1]

theorem entityTrashAttrs_fail (attrs : List Attribute) (w : World) (err : Error)
    (h : (entityTrashAttrs attrs w).1 = some err) :
    (entityTrashAttrs attrs w).2.db = w.db ∧
    (entityTrashAttrs attrs w).2.pending = none ∧
    ∃ evs, (entityTrashAttrs attrs w).2.log = w.log ++ evs ∧
      evs.filterMap Event.err = [err] ∧ Event.rollback ∈ evs ∧
      ∀ ce, Event.commit ce ∉ evs := by
  induction attrs generalizing w with
  | nil => simp [entityTrashAttrs] at h
  | cons a rest ih =>
    rw [entityTrashAttrs] at h ⊢
    cases hf : w.fault w.calls with
    | some e =>
      simp only [txExec, timeNow, hf] at h ⊢
      simp only [Option.some.injEq] at h
      subst h
      refine ⟨rfl, rfl, (trashRows w.clock w.ticks [a]).map
        (fun r => Event.exec true (Stmt.insertAttributeTrash r) (some e)) ++ [Event.rollback],
        ?_, ?_, ?_, ?_⟩
      · simp [txRollback, trashRows]
      · simp [Event.err, trashRows]
      · simp
      · simp [trashRows]
    | none =>
      simp only [txExec, timeNow, hf] at h ⊢
      obtain ⟨h1, h2, evs, h3, h4, h5, h6⟩ := ih _ h
      refine ⟨h1, h2, (trashRows w.clock w.ticks [a]).map
        (fun r => Event.exec true (Stmt.insertAttributeTrash r) none) ++ evs, ?_, ?_, ?_, ?_⟩
      · rw [h3]; simp [trashRows]
      · simpa [Event.err, trashRows] using h4
      · simp [h5]
      · intro ce; simp [h6 ce, trashRows]

theorem EntityFindByID_some {entityID : String} {w : World} {ent : Entity}
    (h : (EntityFindByID entityID w).1 = (some ent, none)) :
    entityID ≠ "" ∧ w.fault w.calls = none ∧
    (w.db.entitiesByID entityID).head? = some ent ∧
    (EntityFindByID entityID w).2 =
      { w with calls := w.calls + 1
               log := w.log ++ [Event.query (Query.entityByID entityID) none] } := by
  unfold EntityFindByID at h ⊢
  by_cases hid : entityID = ""
  · simp [hid] at h
  · simp only [hid, if_false] at h ⊢
    cases hf : w.fault w.calls with
    | some e =>
      simp only [dbQueryRow, hf] at h
      split at h <;> simp at h
    | none =>
      cases hr : w.db.entitiesByID entityID with
      | nil => simp [dbQueryRow, hf, hr] at h
      | cons r rs =>
        simp only [dbQueryRow, hf, hr] at h ⊢
        simp at h
        simp [h, hid]

theorem trace_append (w w1 : World) (evs : List Event) (h : w1.log = w.log ++ evs) :
    trace w w1 = evs := by
  simp [trace, h]

theorem EntityTrash_run (entityID : String) (w : World) (ent : Entity)
    (hbegin : (dbBegin w).1 = none)
    (hfound : (EntityFindByID entityID (dbBegin w).2).1 = (some ent, none)) :
    (∃ err, (EntityTrash entityID w).1 = (false, some err) ∧
      (trace w (EntityTrash entityID w).2).filterMap Event.err = [err] ∧
      Event.rollback ∈ trace w (EntityTrash entityID w).2 ∧
      (∀ ce, Event.commit ce ∉ trace w (EntityTrash entityID w).2) ∧
      (EntityTrash entityID w).2.db = w.db ∧ (EntityTrash entityID w).2.pending = none) ∨
    (∃ ce, (EntityTrash entityID w).1 = (ce.isNone, ce) ∧
      Event.commit ce ∈ trace w (EntityTrash entityID w).2 ∧
      (∀ ev ∈ trace w (EntityTrash entityID w).2, ev.err = none ∨ ev = Event.commit ce) ∧
      (EntityTrash entityID w).2.db =
        (if ce.isNone then
          applyAll (entityTrashStmts w.clock w.ticks entityID ent (loadedAttrs w entityID)) w.db
        else w.db) ∧
      (EntityTrash entityID w).2.pending = none) := by
  obtain ⟨hid, hf1, hhead, hw2⟩ := EntityFindByID_some hfound
  have hf0 : w.fault w.calls = none := by simpa [dbBegin] using hbegin
  have hb : dbBegin w = (none, { w with
      calls := w.calls + 1
      pending := some []
      log := w.log ++ [Event.begin none] }) := by
    simp [dbBegin, hf0]
  rw [hb] at hfound hw2 hf1 hhead
  simp only at hfound hw2 hf1 hhead
  have hfind : EntityFindByID entityID _ = (_, _) := Prod.ext hfound hw2
  unfold EntityTrash
  simp only [hid, if_false, hb, hfind]
  cases hf2 : w.fault (w.calls + 1 + 1) with
  | some e =>
    left
    simp only [txExec, timeNow, hf2]
    refine ⟨e, rfl, ?_, ?_, ?_, rfl, rfl⟩
    · simp [trace, txRollback, Event.err]
    · simp [trace, txRollback]
    · simp [trace, txRollback]
  | none =>
    simp only [txExec, timeNow, hf2, EntityAttributeList, dbQuery]
    cases hf3 : w.fault (w.calls + 1 + 1 + 1) with
    | some e =>
      left
      simp only []
      refine ⟨e, rfl, ?_, ?_, ?_, rfl, rfl⟩
      · simp [trace, txRollback, Event.err]
      · simp [trace, txRollback]
      · simp [trace, txRollback]
    | none =>
      have hload : cutRows (w.rowsCut (w.calls + 1 + 1 + 1)) (w.db.attributesOf entityID) =
          loadedAttrs w entityID := rfl
      simp only [hload]
      generalize hw4 : World.mk _ _ _ _ _ _ _ _ _ _ = w4
      cases hl : entityTrashAttrs (loadedAttrs w entityID) w4 with
      | mk le w5 =>
      cases le with
      | some e =>
        left
        obtain ⟨h1, h2, evs, h3, h4, h5, h6⟩ :=
          entityTrashAttrs_fail (loadedAttrs w entityID) w4 e (by rw [hl])
        rw [hl] at h1 h2 h3
        simp only at h1 h2 h3 ⊢
        subst hw4
        simp only at h1 h3
        refine ⟨e, rfl, ?_, ?_, ?_, h1, h2⟩
        · simp [trace, h3, Event.err, h4]
        · simp [trace, h3, h5]
        · simp [trace, h3, h6]
      | none =>
        subst hw4
        have h1 := entityTrashAttrs_ok (loadedAttrs w entityID) _ (by rw [hl])
        rw [hl] at h1
        simp only [Option.isNone_none, if_true, Option.map_some', List.nil_append] at h1 ⊢
        subst h1
        clear hl
        simp only []
        cases hf4 : w.fault (w.calls + 1 + 1 + 1 + 1 + (loadedAttrs w entityID).length) with
        | some e =>
          left
          simp only []
          refine ⟨e, rfl, ?_, ?_, ?_, rfl, rfl⟩
          · simp [trace, txRollback, Event.err]
          · simp [trace, txRollback]
          · simp [trace, txRollback]
        | none =>
          simp only [Option.isNone_none, if_true, Option.map_some']
          cases hf5 : w.fault (w.calls + 1 + 1 + 1 + 1 + (loadedAttrs w entityID).length + 1) with
          | some e =>
            left
            simp only []
            refine ⟨e, rfl, ?_, ?_, ?_, rfl, rfl⟩
            · simp [trace, txRollback, Event.err]
            · simp [trace, txRollback]
            · simp [trace, txRollback]
          | none =>
            right
            simp only [Option.isNone_none, if_true, Option.map_some', txCommit]
            cases hf6 : w.fault
                (w.calls + 1 + 1 + 1 + 1 + (loadedAttrs w entityID).length + 1 + 1) with
            | some e =>
              refine ⟨some e, rfl, ?_, ?_, rfl, rfl⟩
              · simp [trace]
              · simp only [trace, List.append_assoc, List.drop_left]
                intro ev hev
                simp only [List.mem_append, List.mem_cons, List.mem_map, List.mem_singleton,
                  List.not_mem_nil, or_false] at hev
                rcases hev with h | h | h | h | h | h | h | h <;>
                  first
                  | (subst h; simp [Event.err])
                  | (obtain ⟨r, _, h⟩ := h; subst h; simp [Event.err])
            | none =>
              refine ⟨none, rfl, ?_, ?_, ?_, rfl⟩
              · simp [trace]
              · simp only [trace, List.append_assoc, List.drop_left]
                intro ev hev
                simp only [List.mem_append, List.mem_cons, List.mem_map, List.mem_singleton,
                  List.not_mem_nil, or_false] at hev
                rcases hev with h | h | h | h | h | h | h | h <;>
                  first
                  | (subst h; simp [Event.err])
                  | (obtain ⟨r, _, h⟩ := h; subst h; simp [Event.err])
              · simp [entityTrashStmts, entityTrashRow]

theorem EntityTrash_true {entityID : String} {w : World}
    (h : (EntityTrash entityID w).1 = (true, none)) :
    (dbBegin w).1 = none ∧
    ∃ ent, (EntityFindByID entityID (dbBegin w).2).1 = (some ent, none) := by
  unfold EntityTrash at h
  split at h
  · simp at h
  · split at h
    · simp at h
    · rename_i w1 hb
      split at h
      · simp at h
      · simp at h
      · rename_i ent w2 hfind
        refine ⟨by rw [hb], ent, ?_⟩
        rw [hb]
        simp only
        rw [hfind]

theorem applyAll_append (xs ys : List Stmt) (db : DB) :
    applyAll (xs ++ ys) db = applyAll ys (applyAll xs db) := by
  simp [applyAll, List.foldl_append]

theorem applyAll_insertAttributeTrash (rows : List AttributeTrashRow) (db : DB) :
    applyAll (rows.map Stmt.insertAttributeTrash) db =
      { db with attributeTrash := db.attributeTrash ++ rows } := by
  induction rows generalizing db with
  | nil => simp [applyAll]
  | cons r rs ih =>
    have := ih (Stmt.apply (Stmt.insertAttributeTrash r) db)
    simp only [applyAll, List.map_cons, List.foldl_cons] at this ⊢
    rw [this]
    simp [Stmt.apply]

theorem applyAll_entityTrashStmts (clock : Nat → Time) (t : Nat) (entityID : String)
    (ent : Entity) (attrs : List Attribute) (db : DB) :
    applyAll (entityTrashStmts clock t entityID ent attrs) db =
      { entities := db.entities.filter (fun e => e.ID ≠ entityID)
        attributes := db.attributes.filter (fun a => a.EntityID ≠ entityID)
        entityTrash := db.entityTrash ++ [entityTrashRow ent (clock t)]
        attributeTrash := db.attributeTrash ++ trashRows clock (t + 1) attrs } := by
  unfold entityTrashStmts
  rw [← List.singleton_append, applyAll_append, applyAll_append, applyAll_insertAttributeTrash]
  simp [applyAll, Stmt.apply]

theorem trashRows_length (clock : Nat → Time) (t : Nat) (attrs : List Attribute) :
    (trashRows clock t attrs).length = attrs.length := by
  induction attrs generalizing t with
  | nil => simp [trashRows]
  | cons a rest ih => simp [trashRows, ih]

theorem trashRows_forall₂ (clock : Nat → Time) (t : Nat) (attrs : List Attribute) :
    List.Forall₂ (fun a r =>
      r.ID = a.ID ∧ r.EntityID = a.EntityID ∧ r.AttributeKey = a.AttributeKey ∧
      r.AttributeValue = a.AttributeValue ∧ r.CreatedAt = a.CreatedAt ∧
      r.UpdatedAt = a.UpdatedAt ∧ ∃ i, r.DeletedAt = clock (t + i))
      attrs (trashRows clock t attrs) := by
  induction attrs generalizing t with
  | nil => simp [trashRows]
  | cons a rest ih =>
    rw [trashRows]
    refine List.Forall₂.cons ⟨rfl, rfl, rfl, rfl, rfl, rfl, 0, rfl⟩ ?_
    refine (ih (t + 1)).imp ?_
    rintro a r ⟨h1, h2, h3, h4, h5, h6, i, h7⟩
    exact ⟨h1, h2, h3, h4, h5, h6, 1 + i, by rw [h7, Nat.add_assoc]⟩

theorem mem_attributesOf {db : DB} {entityID : String} {a : Attribute}
    (h : a ∈ db.attributesOf entityID) : a ∈ db.attributes ∧ a.EntityID = entityID := by
  unfold DB.attributesOf at h
  have := (List.perm_insertionSort keyLE _).mem_iff.mp h
  simpa using this

theorem mem_entitiesByID {db : DB} {entityID : String} {ent : Entity}
    (h : ent ∈ db.entitiesByID entityID) :
    ∃ r ∈ db.entities, r.ID = entityID ∧ ent.ID = r.ID ∧ ent.EntityType = r.EntityType ∧
      ent.Handle = r.Handle ∧ ent.CreatedAt = r.CreatedAt ∧ ent.UpdatedAt = r.UpdatedAt := by
  unfold DB.entitiesByID at h
  simp only [List.mem_map, List.mem_filter, decide_eq_true_eq] at h
  obtain ⟨r, ⟨hr, hid⟩, rfl⟩ := h
  exact ⟨r, hr, hid, rfl, rfl, rfl, rfl, rfl⟩

theorem entityCreateAttrs_ok (entityID : String) (attrs : List (String × String)) (w : World)
    (h : (entityCreateAttrs entityID attrs w).1 = none) :
    (entityCreateAttrs entityID attrs w).2 =
      { w with
        uids := w.uids + attrs.length
        ticks := w.ticks + 2 * attrs.length
        calls := w.calls + attrs.length
        pending := w.pending.map (fun ss =>
          ss ++ (createdAttrs w.uid w.clock entityID w.uids w.ticks attrs).map
            Stmt.insertAttribute)
        log := w.log ++ (createdAttrs w.uid w.clock entityID w.uids w.ticks attrs).map
          (fun r => Event.exec true (Stmt.insertAttribute r) none) } := by
  induction attrs generalizing w with
  | nil => simp [entityCreateAttrs, createdAttrs]
  | cons kv rest ih =>
    obtain ⟨k, v⟩ := kv
    rw [entityCreateAttrs] at h ⊢
    cases hf : w.fault w.calls with
    | some e =>
      simp [attributeCreateWithTransactionOrDB, execOn, txExec, timeNow, newUid, hf] at h
    | none =>
      simp only [attributeCreateWithTransactionOrDB, execOn, txExec, timeNow, newUid, hf,
        if_true] at h ⊢
      rw [ih _ h]
      cases hp : w.pending <;>
        simp [createdAttrs, hp, Nat.add_assoc, Nat.add_comm 1, Nat.mul_add] <;> omega

theorem entityCreateAttrs_fail (entityID : String) (attrs : List (String × String))
    (w : World) (err : Error) (h : (entityCreateAttrs entityID attrs w).1 = some err) :
    (entityCreateAttrs entityID attrs w).2.db = w.db ∧
    (entityCreateAttrs entityID attrs w).2.pending = none ∧
    ∃ evs, (entityCreateAttrs entityID attrs w).2.log = w.log ++ evs ∧
      evs.filterMap Event.err = [err] ∧ Event.rollback ∈ evs ∧
      ∀ ce, Event.commit ce ∉ evs := by
  induction attrs generalizing w with
  | nil => simp [entityCreateAttrs] at h
  | cons kv rest ih =>
    obtain ⟨k, v⟩ := kv
    rw [entityCreateAttrs] at h ⊢
    cases hf : w.fault w.calls with
    | some e =>
      simp only [attributeCreateWithTransactionOrDB, execOn, txExec, timeNow, newUid, hf,
        if_true] at h ⊢
      simp only [Option.some.injEq] at h
      subst h
      refine ⟨rfl, rfl, (createdAttrs w.uid w.clock entityID w.uids w.ticks [(k, v)]).map
        (fun r => Event.exec true (Stmt.insertAttribute r) (some e)) ++ [Event.rollback],
        ?_, ?_, ?_, ?_⟩
      · simp [txRollback, createdAttrs]
      · simp [Event.err, createdAttrs]
      · simp
      · simp [createdAttrs]
    | none =>
      simp only [attributeCreateWithTransactionOrDB, execOn, txExec, timeNow, newUid, hf,
        if_true] at h ⊢
      obtain ⟨h1, h2, evs, h3, h4, h5, h6⟩ := ih _ h
      refine ⟨h1, h2, (createdAttrs w.uid w.clock entityID w.uids w.ticks [(k, v)]).map
        (fun r => Event.exec true (Stmt.insertAttribute r) none) ++ evs, ?_, ?_, ?_, ?_⟩
      · rw [h3]; simp [createdAttrs]
      · simpa [Event.err, createdAttrs] using h4
      · simp [h5]
      · intro ce; simp [h6 ce, createdAttrs]

theorem applyAll_insertAttribute (rows : List Attribute) (db : DB) :
    applyAll (rows.map Stmt.insertAttribute) db =
      { db with attributes := db.attributes ++ rows } := by
  induction rows generalizing db with
  | nil => simp [applyAll]
  | cons r rs ih =>
    have := ih (Stmt.apply (Stmt.insertAttribute r) db)
    simp only [applyAll, List.map_cons, List.foldl_cons] at this ⊢
    rw [this]
    simp [Stmt.apply]

theorem createdAttrs_entries (uid : Nat → String) (clock : Nat → Time) (entityID : String)
    (u t : Nat) (attrs : List (String × String)) :
    (createdAttrs uid clock entityID u t attrs).map
      (fun a => (a.AttributeKey, a.AttributeValue)) = attrs := by
  induction attrs generalizing u t with
  | nil => simp [createdAttrs]
  | cons kv rest ih =>
    obtain ⟨k, v⟩ := kv
    simp [createdAttrs, ih]

theorem createdAttrs_entityID (uid : Nat → String) (clock : Nat → Time) (entityID : String)
    (u t : Nat) (attrs : List (String × String)) :
    ∀ a ∈ createdAttrs uid clock entityID u t attrs, a.EntityID = entityID := by
  induction attrs generalizing u t with
  | nil => simp [createdAttrs]
  | cons kv rest ih =>
    obtain ⟨k, v⟩ := kv
    intro a ha
    simp only [createdAttrs, List.mem_cons] at ha
    rcases ha with rfl | ha
    · rfl
    · exact ih _ _ a ha

theorem attributesSetLoop_run (c : Codec) (entityID : String)
    (attrs : List (String × GoValue)) (w : World) :
    (attributesSetLoop c entityID attrs w).2.db = w.db ∧
    ∃ evs, (attributesSetLoop c entityID attrs w).2.log = w.log ++ evs ∧
      (∀ ce, Event.commit ce ∉ evs) ∧ (∀ be, Event.begin be ∉ evs) ∧
      ((attributesSetLoop c entityID attrs w).1 = true →
        (∀ ev ∈ evs, ev.err = none) ∧ Event.rollback ∉ evs) ∧
      ((attributesSetLoop c entityID attrs w).1 = false →
        Event.rollback ∈ evs ∧ (attributesSetLoop c entityID attrs w).2.pending = none) := by
  induction attrs generalizing w with
  | nil => exact ⟨rfl, [], by simp [attributesSetLoop], by simp, by simp,
      by simp [attributesSetLoop], by simp [attributesSetLoop]⟩
  | cons kv rest ih =>
    obtain ⟨k, v⟩ := kv
    rw [attributesSetLoop]
    cases hf : w.fault w.calls with
    | some e =>
      simp only [AttributeFind, dbQueryRow, hf, ite_self]
      exact ⟨rfl, [Event.query (Query.attributeLiveByEntityID entityID) (some e),
        Event.rollback], by simp [txRollback], by simp, by simp, by simp, by simp [txRollback]⟩
    | none =>
      cases hr : w.db.liveAttributesOf entityID with
      | nil =>
        simp only [AttributeFind, dbQueryRow, hf, hr, ite_self]
        exact ⟨rfl, [Event.query (Query.attributeLiveByEntityID entityID)
          (some Error.ErrNoRows), Event.rollback], by simp [txRollback], by simp, by simp,
          by simp, by simp [txRollback]⟩
      | cons r rs =>
        simp only [AttributeFind, dbQueryRow, hf, hr, timeNow, txExec]
        cases hf2 : w.fault (w.calls + 1) with
        | some e =>
          simp only []
          refine ⟨rfl, [Event.query (Query.attributeLiveByEntityID entityID) none,
            Event.exec true (Stmt.updateAttributeSet
              { r with AttributeValue := c.SetInterface v, UpdatedAt := w.clock w.ticks })
              (some e), Event.rollback],
            by simp [txRollback], by simp, by simp, by simp, by simp [txRollback]⟩
        | none =>
          simp only []
          obtain ⟨h1, evs, h2, h3, h4, h5, h6⟩ := ih
            { w with
              calls := w.calls + 1 + 1
              ticks := w.ticks + 1
              pending := w.pending.map (fun ss => ss ++ [Stmt.updateAttributeSet
                { r with AttributeValue := c.SetInterface v, UpdatedAt := w.clock w.ticks }])
              log := w.log ++ [Event.query (Query.attributeLiveByEntityID entityID) none] ++
                [Event.exec true (Stmt.updateAttributeSet
                  { r with AttributeValue := c.SetInterface v, UpdatedAt := w.clock w.ticks })
                  none] }
          simp only [Option.isNone_none, if_true]
          refine ⟨h1, Event.query (Query.attributeLiveByEntityID entityID) none ::
              Event.exec true (Stmt.updateAttributeSet
                { r with AttributeValue := c.SetInterface v, UpdatedAt := w.clock w.ticks })
                none :: evs, ?_, ?_, ?_, ?_, ?_⟩
          · rw [h2]; simp
          · intro ce; simp [h3 ce]
          · intro be; simp [h4 be]
          · intro ht
            obtain ⟨h7, h8⟩ := h5 ht
            refine ⟨?_, by simp [h8]⟩
            intro ev hev
            simp only [List.mem_cons] at hev
            rcases hev with rfl | rfl | hev
            · rfl
            · rfl
            · exact h7 ev hev
          · intro hfalse
            obtain ⟨h7, h8⟩ := h6 hfalse
            exact ⟨by simp [h7], h8⟩

theorem attributesSetLoop_ok (c : Codec) (entityID : String)
    (attrs : List (String × GoValue)) (w : World)
    (h : (attributesSetLoop c entityID attrs w).1 = true) :
    (attributesSetLoop c entityID attrs w).2 =
      { w with
        calls := w.calls + 2 * attrs.length
        ticks := w.ticks + attrs.length
        pending := w.pending.map (fun ss =>
          ss ++ (attributesSetUpdates c w.clock (firstLiveAttribute w.db entityID) w.ticks
            attrs).map Stmt.updateAttributeSet)
        log := w.log ++ attributesSetEvents entityID
          (attributesSetUpdates c w.clock (firstLiveAttribute w.db entityID) w.ticks attrs) } := by
  induction attrs generalizing w with
  | nil => simp [attributesSetLoop, attributesSetUpdates, attributesSetEvents]
  | cons kv rest ih =>
    obtain ⟨k, v⟩ := kv
    rw [attributesSetLoop] at h ⊢
    cases hf : w.fault w.calls with
    | some e => simp [AttributeFind, dbQueryRow, hf] at h
    | none =>
      cases hr : w.db.liveAttributesOf entityID with
      | nil => simp [AttributeFind, dbQueryRow, hf, hr] at h
      | cons r rs =>
        simp only [AttributeFind, dbQueryRow, hf, hr, timeNow, txExec] at h ⊢
        cases hf2 : w.fault (w.calls + 1) with
        | some e => simp [hf2] at h
        | none =>
          simp only [hf2, Option.isNone_none, if_true] at h ⊢
          rw [ih _ h]
          have hfirst : firstLiveAttribute w.db entityID = r := by
            simp [firstLiveAttribute, hr]
          cases hp : w.pending <;>
            simp [attributesSetUpdates, attributesSetEvents, hfirst, hp, Nat.add_assoc,
              Nat.add_comm 1, Nat.mul_add] <;> omega

theorem attributesSetUpdates_values (c : Codec) (clock : Nat → Time) (found : Attribute)
    (t : Nat) (attrs : List (String × GoValue)) :
    (attributesSetUpdates c clock found t attrs).map (fun r => r.AttributeValue) =
      attrs.map (fun kv => c.SetInterface kv.2) := by
  induction attrs generalizing t with
  | nil => simp [attributesSetUpdates]
  | cons kv rest ih =>
    obtain ⟨k, v⟩ := kv
    simp [attributesSetUpdates, ih]

/-- When the row stream of the attribute load delivers every row: after `EntityTrash`
returned `(true, nil)`, with a clock that does not go backwards and live rows stamped
no later than the current reading, `EntityFindByID` finds nothing, `EntityAttributeList`
is empty, the entity trash table has gained exactly one row, with that id, the
attribute trash table exactly one row per live attribute of the entity, and each added
row has a `DeletedAt` not earlier than the `UpdatedAt` of the live row it was copied
from. -/
theorem EntityTrash_success_complete_load (entityID : String) (w : World)
    (hok : (EntityTrash entityID w).1 = (true, none))
    (hload : w.rowsCut (w.calls + 3) = none)
    (hmono : Monotone w.clock)
    (hent : ∀ r ∈ w.db.entities, r.ID = entityID → r.UpdatedAt ≤ w.clock w.ticks)
    (hattr : ∀ a ∈ w.db.attributes, a.EntityID = entityID → a.UpdatedAt ≤ w.clock w.ticks) :
    (∀ w2 : World, w2.db = (EntityTrash entityID w).2.db → w2.fault w2.calls = none →
      (EntityFindByID entityID w2).1 = (none, none)) ∧
    (∀ w2 : World, w2.db = (EntityTrash entityID w).2.db → w2.fault w2.calls = none →
      (EntityAttributeList entityID w2).1 = ([], none)) ∧
    ∃ (live : Entity) (row : EntityTrashRow) (rows : List AttributeTrashRow),
      live ∈ w.db.entities ∧ live.ID = entityID ∧
      (EntityTrash entityID w).2.db.entityTrash = w.db.entityTrash ++ [row] ∧
      row.ID = entityID ∧ row.UpdatedAt = live.UpdatedAt ∧ live.UpdatedAt ≤ row.DeletedAt ∧
      (EntityTrash entityID w).2.db.attributeTrash = w.db.attributeTrash ++ rows ∧
      rows.length = (w.db.attributes.filter (fun a => a.EntityID = entityID)).length ∧
      List.Forall₂ (fun a r => r.ID = a.ID ∧ a.UpdatedAt ≤ r.DeletedAt)
        (w.db.attributesOf entityID) rows := by
  obtain ⟨hbegin, ent, hfound⟩ := EntityTrash_true hok
  obtain ⟨hid, -, hhead, -⟩ := EntityFindByID_some hfound
  have hdb0 : (dbBegin w).2.db = w.db := rfl
  rw [hdb0] at hhead
  have hmemE : ent ∈ w.db.entitiesByID entityID := List.mem_of_mem_head? hhead
  obtain ⟨live, hlive, hliveid, hentid, -, -, -, hupd⟩ := mem_entitiesByID hmemE
  rcases EntityTrash_run entityID w ent hbegin hfound with
    ⟨e, h1, -⟩ | ⟨ce, h1, -, -, hdb, -⟩
  · rw [hok] at h1; simp at h1
  · rw [hok] at h1
    have hce : ce = none := by
      simp only [Prod.mk.injEq] at h1
      exact h1.2.symm
    subst hce
    have hall : loadedAttrs w entityID = w.db.attributesOf entityID := by
      simp [loadedAttrs, cutRows, hload]
    simp only [Option.isNone_none, if_true, hall] at hdb
    rw [applyAll_entityTrashStmts] at hdb
    refine ⟨?_, ?_, live, entityTrashRow ent (w.clock w.ticks),
      trashRows w.clock (w.ticks + 1) (w.db.attributesOf entityID), hlive, hliveid, ?_, ?_, hupd,
      ?_, ?_, ?_, ?_⟩
    · intro w2 hw2 hf
      have hrows : w2.db.entitiesByID entityID = [] := by
        rw [hw2, hdb]
        simp [DB.entitiesByID, List.filter_filter]
      simp [EntityFindByID, hid, dbQueryRow, hf, hrows]
    · intro w2 hw2 hf
      have hrows : w2.db.attributesOf entityID = [] := by
        rw [hw2, hdb]
        simp [DB.attributesOf, List.filter_filter]
      simp [EntityAttributeList, dbQuery, hf, hrows, cutRows]
      cases w2.rowsCut w2.calls <;> simp
    · rw [hdb]
    · simp [entityTrashRow, hentid, hliveid]
    · exact hent live hlive hliveid
    · rw [hdb]
    · rw [trashRows_length]
      simp [DB.attributesOf, List.length_insertionSort]
    · refine List.Forall₂.imp ?_ ((List.forall₂_and_left _ _).mpr
        ⟨fun a ha => mem_attributesOf ha, trashRows_forall₂ w.clock (w.ticks + 1) _⟩)
      rintro a r ⟨⟨hmem, haid⟩, h1, -, -, -, -, h6, i, h7⟩
      refine ⟨h1, ?_⟩
      rw [h7]
      exact le_trans (hattr a hmem haid) (hmono (by omega))

/-! ## The claims -/

/-- C2 (code): in the example world the entity `e1` has two live attributes.  When the
row stream of the attribute load stops after one row, `EntityTrash(e1)` still returns
`(true, nil)`, with no executor call reporting an error: it has inserted one attribute
trash row (for `a3`) and deleted both live attributes, so the attribute `a1` is in
neither table. -/
theorem EntityTrash_truncated_load_loses_attribute :
    (exampleWorld.db.attributes.filter (fun a => a.EntityID = "e1")).length = 2 ∧
    exampleWorldCut.db = exampleWorld.db ∧
    (EntityTrash "e1" exampleWorldCut).1 = (true, none) ∧
    (∀ ev ∈ trace exampleWorldCut (EntityTrash "e1" exampleWorldCut).2, ev.err = none) ∧
    (EntityTrash "e1" exampleWorldCut).2.db.attributeTrash =
      [{ ID := "a3", EntityID := "e1", AttributeKey := "age", AttributeValue := "7",
         CreatedAt := 1, UpdatedAt := 5, DeletedAt := 11 }] ∧
    (EntityTrash "e1" exampleWorldCut).2.db.attributes =
      [{ ID := "a2", EntityID := "e2", AttributeKey := "name", AttributeValue := "Bob",
         CreatedAt := 3, UpdatedAt := 3 }] := by
  decide

/-- C3 (code): trashing the entity `e1`, whose live row has the handle `home`, succeeds
and inserts an entity trash row with an empty handle: `EntityTrash` copies the id, the
type and the two timestamps of the entity, not its handle or status. -/
theorem EntityTrash_drops_handle :
    exampleWorld.db.entities.filter (fun e => e.ID = "e1") =
      [{ ID := "e1", EntityType := "post", Handle := "home", CreatedAt := 1, UpdatedAt := 2 }] ∧
    (EntityTrash "e1" exampleWorld).1 = (true, none) ∧
    (EntityTrash "e1" exampleWorld).2.db.entityTrash =
      [{ ID := "e1", EntityType := "post", Handle := "", CreatedAt := 1, UpdatedAt := 2,
         DeletedAt := 10 }] := by
  decide

/-- C4 (code): `EntityTrash` on the id `nope`, for which no live entity exists, returns
`(false, nil)`: the success flag is false and the error is nil.  It rolls back without
executing a statement or committing, and the tables are unchanged. -/
theorem EntityTrash_missing_returns_nil_error :
    exampleWorld.db.entities.filter (fun e => e.ID = "nope") = [] ∧
    (EntityTrash "nope" exampleWorld).1 = (false, none) ∧
    trace exampleWorld (EntityTrash "nope" exampleWorld).2 =
      [Event.begin none, Event.query (Query.entityByID "nope") (some Error.ErrNoRows),
        Event.rollback] ∧
    (EntityTrash "nope" exampleWorld).2.db = exampleWorld.db := by
  decide

/-- C5: with a generated entity id that no row uses yet, `EntityCreateWithAttributes`
either commits one entity row and one attribute row per entry, in order, each
referencing the new entity and carrying the entry's key and value (so the attributes of
the new entity read back as the entries given), and returns that entity with a nil
error, never rolling back; or it returns a nil entity with the error of the one failing
call, has not committed, has rolled back (unless `Begin` itself failed), and leaves the
tables as they were, with no entity row and no attribute row of that id. -/
theorem EntityCreateWithAttributes_atomic (entityType : String)
    (attributes : List (String × String)) (w : World)
    (hfreshE : ∀ e ∈ w.db.entities, e.ID ≠ w.uid w.uids)
    (hfreshA : ∀ a ∈ w.db.attributes, a.EntityID ≠ w.uid w.uids) :
    (∃ (entity : Entity) (rows : List Attribute),
      (EntityCreateWithAttributes entityType attributes w).1 = (some entity, none) ∧
      entity.ID = w.uid w.uids ∧ entity.EntityType = entityType ∧
      Event.commit none ∈ trace w (EntityCreateWithAttributes entityType attributes w).2 ∧
      Event.rollback ∉ trace w (EntityCreateWithAttributes entityType attributes w).2 ∧
      (EntityCreateWithAttributes entityType attributes w).2.db.entities =
        w.db.entities ++ [entity] ∧
      (EntityCreateWithAttributes entityType attributes w).2.db.attributes =
        w.db.attributes ++ rows ∧
      rows.map (fun a => (a.AttributeKey, a.AttributeValue)) = attributes ∧
      (∀ a ∈ rows, a.EntityID = entity.ID) ∧
      (((EntityCreateWithAttributes entityType attributes w).2.db.attributes.filter
        (fun a => a.EntityID = entity.ID)).map
          (fun a => (a.AttributeKey, a.AttributeValue)) = attributes)) ∨
    (∃ err : Error,
      (EntityCreateWithAttributes entityType attributes w).1 = (none, some err) ∧
      (trace w (EntityCreateWithAttributes entityType attributes w).2).filterMap Event.err =
        [err] ∧
      Event.commit none ∉ trace w (EntityCreateWithAttributes entityType attributes w).2 ∧
      (Event.begin (some err) ∈ trace w (EntityCreateWithAttributes entityType attributes w).2 ∨
        Event.rollback ∈ trace w (EntityCreateWithAttributes entityType attributes w).2) ∧
      (EntityCreateWithAttributes entityType attributes w).2.db = w.db ∧
      (∀ e ∈ (EntityCreateWithAttributes entityType attributes w).2.db.entities,
        e.ID ≠ w.uid w.uids) ∧
      (∀ a ∈ (EntityCreateWithAttributes entityType attributes w).2.db.attributes,
        a.EntityID ≠ w.uid w.uids)) := by
  unfold EntityCreateWithAttributes
  cases hf0 : w.fault w.calls with
  | some e =>
    right
    simp only [dbBegin, hf0]
    refine ⟨e, ?_, ?_, ?_, ?_, ?_, hfreshE, hfreshA⟩
    · trivial
    · simp [trace, Event.err]
    · simp [trace]
    · simp [trace]
    · trivial
  | none =>
    simp only [dbBegin, hf0, entityCreateWithTransactionOrDB, execOn, txExec, timeNow, newUid,
      if_true]
    cases hf1 : w.fault (w.calls + 1) with
    | some e =>
      right
      simp only []
      refine ⟨e, rfl, ?_, ?_, ?_, rfl, hfreshE, hfreshA⟩
      · simp [trace, txRollback, Event.err]
      · simp [trace, txRollback]
      · simp [trace, txRollback]
    | none =>
      simp only [Option.isNone_none, if_true, Option.map_some', List.nil_append]
      generalize hw2 : World.mk _ _ _ _ _ _ _ _ _ _ = w2
      cases hl : entityCreateAttrs (w.uid w.uids) attributes w2 with
      | mk le w3 =>
      cases le with
      | some e =>
        right
        obtain ⟨h1, h2, evs, h3, h4, h5, h6⟩ :=
          entityCreateAttrs_fail (w.uid w.uids) attributes w2 e (by rw [hl])
        rw [hl] at h1 h2 h3
        simp only at h1 h2 h3 ⊢
        subst hw2
        simp only at h1 h3
        refine ⟨e, rfl, ?_, ?_, ?_, h1, ?_, ?_⟩
        · simp [trace, h3, Event.err, h4]
        · simp [trace, h3, h6]
        · simp [trace, h3, h5]
        · rw [h1]; exact hfreshE
        · rw [h1]; exact hfreshA
      | none =>
        subst hw2
        have h1 := entityCreateAttrs_ok (w.uid w.uids) attributes _ (by rw [hl])
        rw [hl] at h1
        simp only [Option.map_some'] at h1 ⊢
        subst h1
        clear hl
        simp only [txCommit]
        cases hf2 : w.fault (w.calls + 1 + 1 + attributes.length) with
        | some e =>
          right
          simp only []
          refine ⟨e, rfl, ?_, ?_, ?_, rfl, hfreshE, hfreshA⟩
          · simp [trace, txRollback, Event.err]
          · simp [trace, txRollback]
          · simp [trace, txRollback]
        | none =>
          left
          simp only [Option.isNone_none, if_true, Option.getD_some]
          refine ⟨_, createdAttrs w.uid w.clock (w.uid w.uids) (w.uids + 1) (w.ticks + 1 + 1)
            attributes, rfl, rfl, rfl, ?_, ?_, ?_, ?_, createdAttrs_entries _ _ _ _ _ _,
            createdAttrs_entityID _ _ _ _ _ _, ?_⟩
          · simp [trace]
          · simp [trace]
          · rw [← List.singleton_append, applyAll_append, applyAll_insertAttribute]
            simp [applyAll, Stmt.apply]
          · rw [← List.singleton_append, applyAll_append, applyAll_insertAttribute]
            simp [applyAll, Stmt.apply]
          · rw [← List.singleton_append, applyAll_append, applyAll_insertAttribute]
            simp only [applyAll, Stmt.apply, List.foldl_cons, List.foldl_nil, List.filter_append,
              List.append_nil]
            have hA : w.db.attributes.filter (fun a => a.EntityID = w.uid w.uids) = [] := by
              simp only [List.filter_eq_nil_iff, decide_eq_true_eq]
              exact hfreshA
            have hB : (createdAttrs w.uid w.clock (w.uid w.uids) (w.uids + 1) (w.ticks + 1 + 1)
                attributes).filter (fun a => a.EntityID = w.uid w.uids) =
                createdAttrs w.uid w.clock (w.uid w.uids) (w.uids + 1) (w.ticks + 1 + 1)
                  attributes := by
              simp only [List.filter_eq_self, decide_eq_true_eq]
              exact createdAttrs_entityID _ _ _ _ _ _
            rw [hA, hB, List.nil_append]
            exact createdAttrs_entries _ _ _ _ _ _

/-- C5, at the example of the tests: `post` with `name` set to `Hello world`. -/
theorem EntityCreateWithAttributes_atomic_witness :
    (∀ e ∈ exampleWorld.db.entities, e.ID ≠ exampleWorld.uid exampleWorld.uids) ∧
    (∀ a ∈ exampleWorld.db.attributes, a.EntityID ≠ exampleWorld.uid exampleWorld.uids) ∧
    (EntityCreateWithAttributes "post" [("name", "Hello world")] exampleWorld).1 =
      (some { ID := "u0", EntityType := "post", CreatedAt := 10, UpdatedAt := 11 }, none) ∧
    ((EntityCreateWithAttributes "post" [("name", "Hello world")] exampleWorld).2.db.attributes.filter
      (fun a => a.EntityID = "u0")).map (fun a => (a.AttributeKey, a.AttributeValue)) =
      [("name", "Hello world")] := by
  refine ⟨by decide, by decide, ?_⟩
  have h6 : (EntityCreateWithAttributes "post" [("name", "Hello world")] exampleWorld).1 =
      (some { ID := "u0", EntityType := "post", CreatedAt := 10, UpdatedAt := 11 }, none) := by
    decide
  rcases EntityCreateWithAttributes_atomic "post" [("name", "Hello world")] exampleWorld
    (by decide) (by decide) with
    ⟨entity, rows, h1, h2, h3, -, -, -, -, -, -, h4⟩ | ⟨err, h1, -⟩
  · have h5 : entity = { ID := "u0", EntityType := "post", CreatedAt := 10, UpdatedAt := 11 } := by
      rw [h6] at h1
      simp only [Prod.mk.injEq, Option.some.injEq, and_true] at h1
      exact h1.symm
    subst h5
    exact ⟨h1, h4⟩
  · rw [h6] at h1
    simp at h1

/-- C6: `AttributesSet` returns `true` only when the statements of every key ran and
succeeded and `Commit` succeeded: the executor calls are then `Begin`, for each entry
of the map in turn a successful find and a successful update carrying the encoded value
of that entry, and a successful `Commit`, with no rollback, and the tables are those
updates applied.  And when a find, an insert or an update fails, it calls `Rollback`,
never calls `Commit`, returns `false`, and leaves the tables as they were, with no
transaction open. -/
theorem AttributesSet_all_or_nothing (c : Codec) (entityID : String)
    (attributes : List (String × GoValue)) (w : World) :
    ((AttributesSet c entityID attributes w).1 = true →
      (∀ ev ∈ trace w (AttributesSet c entityID attributes w).2, ev.err = none) ∧
      Event.commit none ∈ trace w (AttributesSet c entityID attributes w).2 ∧
      Event.rollback ∉ trace w (AttributesSet c entityID attributes w).2 ∧
      trace w (AttributesSet c entityID attributes w).2 =
        Event.begin none ::
          (attributesSetEvents entityID
            (attributesSetUpdates c w.clock (firstLiveAttribute w.db entityID) w.ticks
              attributes) ++ [Event.commit none]) ∧
      (attributesSetUpdates c w.clock (firstLiveAttribute w.db entityID) w.ticks
        attributes).map (fun r => r.AttributeValue) =
        attributes.map (fun kv => c.SetInterface kv.2) ∧
      (AttributesSet c entityID attributes w).2.db =
        applyAll ((attributesSetUpdates c w.clock (firstLiveAttribute w.db entityID) w.ticks
          attributes).map Stmt.updateAttributeSet) w.db) ∧
    (((∃ q err, Event.query q (some err) ∈ trace w (AttributesSet c entityID attributes w).2) ∨
      (∃ s err, Event.exec true s (some err) ∈
        trace w (AttributesSet c entityID attributes w).2)) →
      (AttributesSet c entityID attributes w).1 = false ∧
      Event.rollback ∈ trace w (AttributesSet c entityID attributes w).2 ∧
      (∀ ce, Event.commit ce ∉ trace w (AttributesSet c entityID attributes w).2) ∧
      (AttributesSet c entityID attributes w).2.db = w.db ∧
      (AttributesSet c entityID attributes w).2.pending = none) := by
  unfold AttributesSet
  cases hf0 : w.fault w.calls with
  | some e =>
    simp only [dbBegin, hf0]
    refine ⟨by simp, ?_⟩
    intro h
    simp [trace] at h
  | none =>
    simp only [dbBegin, hf0, Option.isNone_none, if_true]
    generalize hw1 : World.mk _ _ _ _ _ _ _ _ _ _ = w1
    have hlog1 : w1.log = w.log ++ [Event.begin none] := by rw [← hw1]
    have hdb1 : w1.db = w.db := by rw [← hw1]
    obtain ⟨h1, evs, h2, h3, h4, h5, h6⟩ := attributesSetLoop_run c entityID attributes w1
    have hnofail : (∀ ev ∈ evs, ev.err = none) →
        ∀ ev ∈ evs, (∀ q err, ev ≠ Event.query q (some err)) ∧
          (∀ s err, ev ≠ Event.exec true s (some err)) := by
      intro hall ev hev
      have := hall ev hev
      constructor
      · rintro q err rfl; simp [Event.err] at this
      · rintro s err rfl; simp [Event.err] at this
    cases hl : attributesSetLoop c entityID attributes w1 with
    | mk b w2 =>
    rw [hl] at h1 h2 h5 h6
    simp only at h1 h2 h5 h6
    cases b with
    | false =>
      obtain ⟨h7, h8⟩ := h6 rfl
      have htr : trace w w2 = Event.begin none :: evs := by
        simp [trace, h2, hlog1]
      simp only [htr]
      refine ⟨by simp, fun _ => ⟨trivial, by simp [h7], ?_, by rw [h1, hdb1], h8⟩⟩
      intro ce; simp [h3 ce]
    | true =>
      obtain ⟨h7, h8⟩ := h5 rfl
      have hnf := hnofail h7
      have hw2 := attributesSetLoop_ok c entityID attributes w1 (by rw [hl])
      rw [hl] at hw2
      simp only at hw2
      have hevs : evs = attributesSetEvents entityID
          (attributesSetUpdates c w.clock (firstLiveAttribute w.db entityID) w.ticks
            attributes) := by
        have hlog2 : w2.log = w1.log ++ attributesSetEvents entityID
            (attributesSetUpdates c w1.clock (firstLiveAttribute w1.db entityID) w1.ticks
              attributes) := by rw [hw2]
        rw [h2] at hlog2
        have := List.append_cancel_left hlog2
        rw [this, ← hw1]
      have hpend : w2.pending = some ((attributesSetUpdates c w.clock
          (firstLiveAttribute w.db entityID) w.ticks attributes).map
            Stmt.updateAttributeSet) := by
        rw [hw2, ← hw1]
        simp
      simp only [txCommit]
      cases hf2 : w2.fault w2.calls with
      | some e =>
        have htr : trace w (txRollback { w2 with
            calls := w2.calls + 1
            pending := none
            log := w2.log ++ [Event.commit (some e)] }) =
            Event.begin none :: (evs ++ [Event.commit (some e), Event.rollback]) := by
          simp [trace, txRollback, h2, hlog1]
        simp only [Option.isNone_some, Bool.false_eq_true, if_false, htr]
        refine ⟨by simp, ?_⟩
        rintro (⟨q, err, hq⟩ | ⟨s, err, hs⟩)
        · simp only [List.mem_cons, List.mem_append, List.mem_singleton, List.not_mem_nil,
            or_false] at hq
          rcases hq with hq | hq | hq | hq
          · simp at hq
          · exact absurd rfl ((hnf _ hq).1 q err)
          · simp at hq
          · simp at hq
        · simp only [List.mem_cons, List.mem_append, List.mem_singleton, List.not_mem_nil,
            or_false] at hs
          rcases hs with hs | hs | hs | hs
          · simp at hs
          · exact absurd rfl ((hnf _ hs).2 s err)
          · simp at hs
          · simp at hs
      | none =>
        have htr : trace w { w2 with
            calls := w2.calls + 1
            db := applyAll (w2.pending.getD []) w2.db
            pending := none
            log := w2.log ++ [Event.commit none] } =
            Event.begin none :: (evs ++ [Event.commit none]) := by
          simp [trace, h2, hlog1]
        simp only [Option.isNone_none, if_true, htr]
        refine ⟨fun _ => ⟨?_, by simp, by simp [h8], by rw [hevs],
          attributesSetUpdates_values _ _ _ _ _, by rw [hpend, h1, hdb1]; rfl⟩, ?_⟩
        · intro ev hev
          simp only [List.mem_cons, List.mem_append, List.mem_singleton, List.not_mem_nil,
            or_false] at hev
          rcases hev with rfl | hev | rfl
          · rfl
          · exact h7 ev hev
          · rfl
        · rintro (⟨q, err, hq⟩ | ⟨s, err, hs⟩)
          · simp only [List.mem_cons, List.mem_append, List.mem_singleton, List.not_mem_nil,
              or_false] at hq
            rcases hq with hq | hq | hq
            · simp at hq
            · exact absurd rfl ((hnf _ hq).1 q err)
            · simp at hq
          · simp only [List.mem_cons, List.mem_append, List.mem_singleton, List.not_mem_nil,
              or_false] at hs
            rcases hs with hs | hs | hs
            · simp at hs
            · exact absurd rfl ((hnf _ hs).2 s err)
            · simp at hs

/-- C6, at an example with the two entries `name` and `age` for the entity `e1`.  When
the update of the second entry (executor call 4) fails, the update of the first entry
has succeeded in the transaction, and `AttributesSet` rolls back, does not commit,
returns `false` and leaves the tables as they were.  When nothing fails it returns
`true` after a find and an update for each of the two entries and the commit. -/
theorem AttributesSet_all_or_nothing_witness :
    Event.exec true (Stmt.updateAttributeSet
      { ID := "a1", EntityID := "e1", AttributeKey := "name", AttributeValue := "Zoe",
        CreatedAt := 1, UpdatedAt := 10 }) none ∈
      trace (exampleWorldFailing 4)
        (AttributesSet exampleCodec "e1"
          [("name", GoValue.string "Zoe"), ("age", GoValue.string "8")]
          (exampleWorldFailing 4)).2 ∧
    ((AttributesSet exampleCodec "e1"
        [("name", GoValue.string "Zoe"), ("age", GoValue.string "8")]
        (exampleWorldFailing 4)).1 = false ∧
      Event.rollback ∈ trace (exampleWorldFailing 4)
        (AttributesSet exampleCodec "e1"
          [("name", GoValue.string "Zoe"), ("age", GoValue.string "8")]
          (exampleWorldFailing 4)).2 ∧
      (∀ ce, Event.commit ce ∉ trace (exampleWorldFailing 4)
        (AttributesSet exampleCodec "e1"
          [("name", GoValue.string "Zoe"), ("age", GoValue.string "8")]
          (exampleWorldFailing 4)).2) ∧
      (AttributesSet exampleCodec "e1"
        [("name", GoValue.string "Zoe"), ("age", GoValue.string "8")]
        (exampleWorldFailing 4)).2.db = (exampleWorldFailing 4).db ∧
      (AttributesSet exampleCodec "e1"
        [("name", GoValue.string "Zoe"), ("age", GoValue.string "8")]
        (exampleWorldFailing 4)).2.pending = none) ∧
    (AttributesSet exampleCodec "e1"
      [("name", GoValue.string "Zoe"), ("age", GoValue.string "8")] exampleWorld).1 = true ∧
    trace exampleWorld
      (AttributesSet exampleCodec "e1"
        [("name", GoValue.string "Zoe"), ("age", GoValue.string "8")] exampleWorld).2 =
      [Event.begin none,
       Event.query (Query.attributeLiveByEntityID "e1") none,
       Event.exec true (Stmt.updateAttributeSet
        { ID := "a1", EntityID := "e1", AttributeKey := "name", AttributeValue := "Zoe",
          CreatedAt := 1, UpdatedAt := 10 }) none,
       Event.query (Query.attributeLiveByEntityID "e1") none,
       Event.exec true (Stmt.updateAttributeSet
        { ID := "a1", EntityID := "e1", AttributeKey := "name", AttributeValue := "8",
          CreatedAt := 1, UpdatedAt := 11 }) none,
       Event.commit none] :=
  ⟨by decide,
    (AttributesSet_all_or_nothing exampleCodec "e1"
      [("name", GoValue.string "Zoe"), ("age", GoValue.string "8")]
      (exampleWorldFailing 4)).2
      (Or.inr ⟨Stmt.updateAttributeSet
        { ID := "a1", EntityID := "e1", AttributeKey := "name", AttributeValue := "8",
          CreatedAt := 1, UpdatedAt := 11 }, Error.driver 1, by decide⟩),
    by decide,
    (((AttributesSet_all_or_nothing exampleCodec "e1"
      [("name", GoValue.string "Zoe"), ("age", GoValue.string "8")] exampleWorld).1
      (by decide)).2.2.2.1).trans (by decide)⟩

/-- C7 (code): when the query of `AttributeFind` matches no row (the entity `e3` has no
attribute), the result is a nil attribute with the error `sql.ErrNoRows`, not a nil
error. -/
theorem AttributeFind_no_rows_is_error :
    exampleWorld.db.liveAttributesOf "e3" = [] ∧
    (AttributeFind "e3" "views" exampleWorld).1 = (none, some Error.ErrNoRows) := by
  decide

/-- C8 (code): `AttributeSetInt(e3, "views", 5)` on the entity `e3`, which has no
attribute, returns `(false, sql.ErrNoRows)`, executes no statement and leaves the
attribute table as it was. -/
theorem AttributeSetInt_absent_not_created :
    exampleWorld.db.liveAttributesOf "e3" = [] ∧
    (AttributeSetInt exampleCodec "e3" "views" 5 exampleWorld).1 =
      (false, some Error.ErrNoRows) ∧
    trace exampleWorld (AttributeSetInt exampleCodec "e3" "views" 5 exampleWorld).2 =
      [Event.query (Query.attributeLiveByEntityID "e3") (some Error.ErrNoRows)] ∧
    (AttributeSetInt exampleCodec "e3" "views" 5 exampleWorld).2.db = exampleWorld.db := by
  decide

/-- C9 (code): on a sqlite store whose first statement fails, `AutoMigrate` executes
that one statement only, of the four that `SqlCreateTable` returns, and returns a nil
error. -/
theorem AutoMigrate_stops_silently :
    (SqlCreateTable (exampleStore "sqlite")).1.length = 4 ∧
    (AutoMigrate (exampleStore "sqlite") (exampleWorldFailing 0)).1 = none ∧
    (trace (exampleWorldFailing 0)
      (AutoMigrate (exampleStore "sqlite") (exampleWorldFailing 0)).2).length = 1 ∧
    (trace (exampleWorldFailing 0)
      (AutoMigrate (exampleStore "sqlite") (exampleWorldFailing 0)).2).map Event.err =
      [some (Error.driver 1)] := by
  decide

theorem containsChars_iff (sub s : List Char) : containsChars sub s = true ↔ sub <:+: s := by
  induction s with
  | nil => simp [containsChars]
  | cons c cs ih => simp [containsChars, ih, List.infix_cons_iff]

theorem foldl_automigrate_off (opts : List StoreOption) (init : Store)
    (hinit : init.automigrateEnabled = false)
    (h : ∀ opt ∈ opts, ∀ s : Store, s.automigrateEnabled = false →
      (opt s).automigrateEnabled = false) :
    (opts.foldl (fun store opt => opt store) init).automigrateEnabled = false := by
  induction opts generalizing init with
  | nil => simpa using hinit
  | cons o rest ih =>
    simp only [List.foldl_cons]
    exact ih (o init) (h o (List.mem_cons_self _ _) init hinit)
      (fun opt hopt => h opt (List.mem_cons_of_mem _ hopt))

theorem foldl_debug_off (opts : List StoreOption) (init : Store)
    (hinit : init.debugEnabled = false)
    (h : ∀ opt ∈ opts, ∀ s : Store, s.debugEnabled = false → (opt s).debugEnabled = false) :
    (opts.foldl (fun store opt => opt store) init).debugEnabled = false := by
  induction opts generalizing init with
  | nil => simpa using hinit
  | cons o rest ih =>
    simp only [List.foldl_cons]
    exact ih (o init) (h o (List.mem_cons_self _ _) init hinit)
      (fun opt hopt => h opt (List.mem_cons_of_mem _ hopt))

/-! ## The claims, continued -/

/-- C11: `DriverName` classifies the driver type name `s` by case-sensitive substring
tests, first match first: `mysql` when `s` contains `mysql`; otherwise `postgres` when
`s` contains `postgres` or `pq`; otherwise `sqlite` when `s` contains `sqlite`;
otherwise `mssql` when `s` contains `mssql`; otherwise `s` itself.  The result depends
on `s` only. -/
theorem DriverName_first_match (s : String) :
    DriverName s =
      if "mysql".data <:+: s.data then "mysql"
      else if "postgres".data <:+: s.data ∨ "pq".data <:+: s.data then "postgres"
      else if "sqlite".data <:+: s.data then "sqlite"
      else if "mssql".data <:+: s.data then "mssql"
      else s := by
  have h3 : "sqlite3".data <:+: s.data → "sqlite".data <:+: s.data := fun h =>
    List.IsInfix.trans (List.IsPrefix.isInfix ⟨['3'], by decide⟩) h
  unfold DriverName stringsContains
  simp only [Bool.or_eq_true, containsChars_iff]
  split_ifs <;> first | rfl | (exfalso; tauto)

/-- C12: for every list of options and every behaviour of the executor, `NewStore`
returns a nil store with a non-nil error exactly when, after the options are applied,
the entity table name or the attribute table name is empty (and then it touches
nothing); otherwise it returns, with a nil error, the store the options built, with
the two trash table names set to the live names followed by `_trash`; and the
auto-migrate and debug flags of that store are off when no option turns them on. -/
theorem NewStore_spec (opts : List StoreOption) (w : World) :
    (((NewStore opts w).1.1 = none ∧ (NewStore opts w).1.2 ≠ none) ↔
      ((applyOptions opts).entityTableName = "" ∨
        (applyOptions opts).attributeTableName = "")) ∧
    (((applyOptions opts).entityTableName = "" ∨ (applyOptions opts).attributeTableName = "") →
      (NewStore opts w).2 = w) ∧
    (¬ ((applyOptions opts).entityTableName = "" ∨
        (applyOptions opts).attributeTableName = "") →
      (NewStore opts w).1 =
        (some { applyOptions opts with
          entityTrashTableName := (applyOptions opts).entityTableName ++ "_trash"
          attributeTrashTableName := (applyOptions opts).attributeTableName ++ "_trash" },
          none)) ∧
    ((∀ opt ∈ opts, ∀ s : Store, s.automigrateEnabled = false →
        (opt s).automigrateEnabled = false) →
      (applyOptions opts).automigrateEnabled = false) ∧
    ((∀ opt ∈ opts, ∀ s : Store, s.debugEnabled = false → (opt s).debugEnabled = false) →
      (applyOptions opts).debugEnabled = false) := by
  refine ⟨?_, ?_, ?_, fun h => foldl_automigrate_off opts {} rfl h,
    fun h => foldl_debug_off opts {} rfl h⟩
  · unfold NewStore
    by_cases h1 : (applyOptions opts).entityTableName = ""
    · simp [h1]
    · by_cases h2 : (applyOptions opts).attributeTableName = ""
      · simp [h1, h2]
      · simp [h1, h2]
  · unfold NewStore
    rintro (h1 | h2)
    · simp [h1]
    · by_cases h1 : (applyOptions opts).entityTableName = ""
      · simp [h1]
      · simp [h1, h2]
  · intro h
    simp only [not_or] at h
    unfold NewStore
    simp [h.1, h.2]

/-- C12, at the example of the tests: a sqlite handle, the two table names, and
auto-migration on, whose first statement fails. -/
theorem NewStore_spec_witness :
    (NewStore [WithDb "*sqlite3.SQLiteDriver", WithEntityTableName "cms_entity",
      WithAttributeTableName "cms_attribute", WithAutoMigrate true] (exampleWorldFailing 0)).1 =
      (some { entityTableName := "cms_entity", attributeTableName := "cms_attribute",
              entityTrashTableName := "cms_entity_trash",
              attributeTrashTableName := "cms_attribute_trash", dbDriverName := "sqlite",
              automigrateEnabled := true, debugEnabled := false }, none) := by
  have h := (NewStore_spec [WithDb "*sqlite3.SQLiteDriver", WithEntityTableName "cms_entity",
    WithAttributeTableName "cms_attribute", WithAutoMigrate true] (exampleWorldFailing 0)).2.2.1
    (by decide)
  rw [h]
  decide

/-- C13 (code): `AttributeSetString(e1, "name", "Zoe")`, where the live row `a1` exists
for `(e1, name)`, inserts nothing and issues one `UPDATE` that has no `WHERE` clause.
When the executor accepts it, every row of the attribute table becomes the row `a1`
with the new value, the attribute `a2` of the entity `e2` and the attribute `a3`
(`age`) included; when the executor rejects it, the call returns the error and `a1`
keeps its old value. -/
theorem AttributeSetString_update_is_unrestricted :
    (AttributeFind "e1" "name" exampleWorld).1 =
      (some { ID := "a1", EntityID := "e1", AttributeKey := "name", AttributeValue := "Ann",
              CreatedAt := 1, UpdatedAt := 4 }, none) ∧
    (AttributeSetString exampleCodec "e1" "name" "Zoe" exampleWorld).1 = (true, none) ∧
    trace exampleWorld (AttributeSetString exampleCodec "e1" "name" "Zoe" exampleWorld).2 =
      [Event.query (Query.attributeLiveByEntityID "e1") none,
       Event.exec false (Stmt.updateAttributeSet
        { ID := "a1", EntityID := "e1", AttributeKey := "name", AttributeValue := "Zoe",
          CreatedAt := 1, UpdatedAt := 10 }) none] ∧
    (AttributeSetString exampleCodec "e1" "name" "Zoe" exampleWorld).2.db.attributes =
      [{ ID := "a1", EntityID := "e1", AttributeKey := "name", AttributeValue := "Zoe",
         CreatedAt := 1, UpdatedAt := 10 },
       { ID := "a1", EntityID := "e1", AttributeKey := "name", AttributeValue := "Zoe",
         CreatedAt := 1, UpdatedAt := 10 },
       { ID := "a1", EntityID := "e1", AttributeKey := "name", AttributeValue := "Zoe",
         CreatedAt := 1, UpdatedAt := 10 }] ∧
    (AttributeSetString exampleCodec "e1" "name" "Zoe" (exampleWorldFailing 1)).1 =
      (false, some (Error.driver 1)) ∧
    (AttributeSetString exampleCodec "e1" "name" "Zoe" (exampleWorldFailing 1)).2.db.attributes =
      exampleWorld.db.attributes := by
  decide

/-- C14 (code): `AttributeFind` does not use its key.  For the entity `e2`, whose only
live attribute is `name`, `AttributeFind(e2, "age")` returns that attribute instead of
not-found; for the entity `e1`, which has an `age` attribute, `AttributeFind(e1, "age")`
returns the attribute `name`. -/
theorem AttributeFind_ignores_key :
    exampleWorld.db.attributes.filter (fun a => a.EntityID = "e2" ∧ a.AttributeKey = "age") =
      [] ∧
    (AttributeFind "e2" "age" exampleWorld).1 =
      (some { ID := "a2", EntityID := "e2", AttributeKey := "name", AttributeValue := "Bob",
              CreatedAt := 3, UpdatedAt := 3 }, none) ∧
    (AttributeFind "e1" "age" exampleWorld).1 =
      (some { ID := "a1", EntityID := "e1", AttributeKey := "name", AttributeValue := "Ann",
              CreatedAt := 1, UpdatedAt := 4 }, none) := by
  decide

/-- C15 (code): the row that `AttributeCreate(e3, "views", "5")` inserts and returns has
a generated id and an empty `entity_id`; the row that
`AttributeCreateInterface(e3, "views", 5)` inserts and returns has the `entity_id` `e3`
and an empty id.  Both set the key and the two timestamps, and both return the row with
the error when the insert fails. -/
theorem AttributeCreate_row_not_well_formed :
    (AttributeCreate "e3" "views" "5" exampleWorld).1 =
      ({ ID := "u0", EntityID := "", AttributeKey := "views", AttributeValue := "5",
         CreatedAt := 10, UpdatedAt := 11 }, none) ∧
    (AttributeCreate "e3" "views" "5" exampleWorld).2.db.attributes =
      exampleWorld.db.attributes ++
        [{ ID := "u0", EntityID := "", AttributeKey := "views", AttributeValue := "5",
           CreatedAt := 10, UpdatedAt := 11 }] ∧
    (AttributeCreateInterface exampleCodec "e3" "views" (GoValue.int64 5) exampleWorld).1 =
      ({ ID := "", EntityID := "e3", AttributeKey := "views", AttributeValue := "5",
         CreatedAt := 10, UpdatedAt := 11 }, none) ∧
    (AttributeCreateInterface exampleCodec "e3" "views" (GoValue.int64 5)
      exampleWorld).2.db.attributes =
      exampleWorld.db.attributes ++
        [{ ID := "", EntityID := "e3", AttributeKey := "views", AttributeValue := "5",
           CreatedAt := 10, UpdatedAt := 11 }] ∧
    (AttributeCreate "e3" "views" "5" (exampleWorldFailing 0)).1 =
      ({ ID := "u0", EntityID := "", AttributeKey := "views", AttributeValue := "5",
         CreatedAt := 10, UpdatedAt := 11 }, some (Error.driver 1)) ∧
    (AttributeCreateInterface exampleCodec "e3" "views" (GoValue.int64 5)
      (exampleWorldFailing 0)).1 =
      ({ ID := "", EntityID := "e3", AttributeKey := "views", AttributeValue := "5",
         CreatedAt := 10, UpdatedAt := 11 }, some (Error.driver 1)) := by
  decide

end EntityStore
